import Mathlib

/-!
Verification of the chat-to-visualization core: a shallow embedding of the
spec sanitizer (server/llm.js, function sanitizeAnswer and its helpers
safeNumber, clamp, extractJSON, and the code-fence-stripping retry in
askOllama) and of the animation evaluator (the draw callback in
client/src/App.tsx), together with theorems settling the frozen claims
about totality, idempotence, clamping, extraction, evaluation order,
linear interpolation, orbit periodicity and internal guards.
-/

namespace ChatVis

/-! ## A loosely typed value model for JavaScript data

The sanitizer receives an arbitrary JavaScript value.  We model such values
with `JSValue`.  JavaScript numbers are modelled as exact rationals plus the
three non-finite values; the only numeric operations the embedded code
performs are comparisons, min, max, remainder and division, which are exact
on rationals, so no floating-point rounding is observable in the claims.
-/

/-- A JavaScript number: a finite value (modelled exactly as a rational) or
one of the non-finite values NaN, Infinity, -Infinity. -/
inductive JSNum where
  | fin (q : ℚ)
  | nan
  | inf
  | negInf
deriving DecidableEq

/-- Whether a JavaScript number is finite, as tested by Number.isFinite. -/
def JSNum.isFinite : JSNum → Bool
  | .fin _ => true
  | _ => false

/-- An arbitrary JavaScript value: undefined, null, boolean, number, string,
array, or object (an object is a key-ordered association list; later keys
shadow earlier ones, as later literal fields or assignments do in JS). -/
inductive JSValue where
  | undefined
  | null
  | bool (b : Bool)
  | num (n : JSNum)
  | str (s : String)
  | arr (elems : List JSValue)
  | obj (fields : List (String × JSValue))

/-- Property read `v?.k` / `v.k` as the embedded code uses it: on an object,
the value of the last binding of the key; on every other value the
accessed properties are absent, giving undefined.  (The code only reads
named properties that do not exist on primitives or arrays, and optional
chaining makes the read on null/undefined yield undefined.) -/
def getField (v : JSValue) (k : String) : JSValue :=
  match v with
  | .obj fs =>
    match fs.reverse.find? (fun p => p.1 == k) with
    | some p => p.2
    | none => .undefined
  | _ => .undefined

/-- JavaScript truthiness: false, 0, NaN, empty string, null and undefined
are falsy; every object and array is truthy. -/
def truthy : JSValue → Bool
  | .undefined => false
  | .null => false
  | .bool b => b
  | .num (.fin q) => q != 0
  | .num .nan => false
  | .num .inf => true
  | .num .negInf => true
  | .str s => s != ""
  | .arr _ => true
  | .obj _ => true

/-- The whitespace set used by String.prototype.trim and by the \s class of
the regular expressions in the code (ASCII part plus NBSP and BOM; the
strings handled by the claims contain only ASCII whitespace). -/
def jsWS (c : Char) : Bool :=
  c == ' ' || c == '\t' || c == '\n' || c == '\r' || c == '\x0b' ||
  c == '\x0c' || c == ' ' || c == '﻿'

/-- Trim of a character list: drop leading and trailing whitespace. -/
def trimChars (cs : List Char) : List Char :=
  ((cs.dropWhile jsWS).reverse.dropWhile jsWS).reverse

/-- String.prototype.trim. -/
def jsTrim (s : String) : String :=
  String.mk (trimChars s.toList)

/-- Numeric value of a decimal digit character. -/
def digitNat (c : Char) : ℕ := c.toNat - 48

/-- Value of a list of decimal digit characters, most significant first. -/
def digitsToNat (ds : List Char) : ℕ :=
  ds.foldl (fun a c => a * 10 + digitNat c) 0

/-- Hexadecimal digit test. -/
def isHexDigit (c : Char) : Bool :=
  c.isDigit || ('a' ≤ c && c ≤ 'f') || ('A' ≤ c && c ≤ 'F')

/-- Numeric value of a hexadecimal digit character. -/
def hexDigitNat (c : Char) : ℕ :=
  if c.isDigit then c.toNat - 48
  else if 'a' ≤ c && c ≤ 'f' then c.toNat - 87
  else c.toNat - 55

/-- Value of a list of digit characters in a given base. -/
def digitsToNatBase (base : ℕ) (f : Char → ℕ) (ds : List Char) : ℕ :=
  ds.foldl (fun a c => a * base + f c) 0

/-- Exponent suffix of a string numeric literal: empty, or e / E with an
optional sign and at least one digit, consuming the whole rest. -/
def parseExpPart (cs : List Char) (v : ℚ) : JSNum :=
  match cs with
  | [] => .fin v
  | e :: rest =>
    if e == 'e' || e == 'E' then
      let (sgn, r2) : ℤ × List Char :=
        match rest with
        | '+' :: r => (1, r)
        | '-' :: r => (-1, r)
        | r => (1, r)
      let ds := r2.takeWhile Char.isDigit
      if ds.isEmpty || !(r2.dropWhile Char.isDigit).isEmpty then .nan
      else .fin (v * (10 : ℚ) ^ (sgn * (digitsToNat ds : ℤ)))
    else .nan

/-- Unsigned decimal part of a string numeric literal: digits with an
optional fraction (at least one digit overall), then an optional exponent. -/
def parseDecPart (cs : List Char) : JSNum :=
  let intPart := cs.takeWhile Char.isDigit
  let rest := cs.dropWhile Char.isDigit
  match rest with
  | '.' :: r2 =>
    let frac := r2.takeWhile Char.isDigit
    let r3 := r2.dropWhile Char.isDigit
    if intPart.isEmpty && frac.isEmpty then .nan
    else
      parseExpPart r3
        ((digitsToNat intPart : ℚ) + (digitsToNat frac : ℚ) / (10 : ℚ) ^ frac.length)
  | _ =>
    if intPart.isEmpty then .nan
    else parseExpPart rest (digitsToNat intPart : ℚ)

/-- String-to-number coercion, modelling Number(string): trimmed empty
string is 0; an unsigned 0x / 0o / 0b radix literal; otherwise an optional
sign followed by Infinity or by a decimal literal; anything else is NaN. -/
def strToNumber (s : String) : JSNum :=
  let t := trimChars s.toList
  match t with
  | [] => .fin 0
  | '0' :: x :: rest =>
    if x == 'x' || x == 'X' then
      if !rest.isEmpty && rest.all isHexDigit then
        .fin (digitsToNatBase 16 hexDigitNat rest : ℚ)
      else .nan
    else if x == 'o' || x == 'O' then
      if !rest.isEmpty && rest.all (fun c => '0' ≤ c && c ≤ '7') then
        .fin (digitsToNatBase 8 digitNat rest : ℚ)
      else .nan
    else if x == 'b' || x == 'B' then
      if !rest.isEmpty && rest.all (fun c => c == '0' || c == '1') then
        .fin (digitsToNatBase 2 digitNat rest : ℚ)
      else .nan
    else parseDecPart t
  | '+' :: rest =>
    if rest = ['I','n','f','i','n','i','t','y'] then .inf else parseDecPart rest
  | '-' :: rest =>
    if rest = ['I','n','f','i','n','i','t','y'] then .negInf
    else
      match parseDecPart rest with
      | .fin q => .fin (-q)
      | _ => .nan
  | _ =>
    if t = ['I','n','f','i','n','i','t','y'] then .inf else parseDecPart t

mutual

/-- Number coercion of an arbitrary value, modelling Number(v): undefined
is NaN, null is 0, booleans are 0 / 1, strings parse as numeric literals,
plain objects are NaN, and an array coerces through its joined string
form. -/
def jsToNumber : JSValue → JSNum
  | .undefined => .nan
  | .null => .fin 0
  | .bool b => .fin (if b then 1 else 0)
  | .num n => n
  | .str s => strToNumber s
  | .obj _ => .nan
  | .arr xs => arrToNumber xs

/-- Number coercion of an array (through its joined string form): empty
array is 0, a single element coerces through its own string form, two or
more elements give NaN because of the comma the join inserts. -/
def arrToNumber : List JSValue → JSNum
  | [] => .fin 0
  | [x] => elemToNumber x
  | _ :: _ :: _ => .nan

/-- Number coercion of the single element of an array: null and undefined
stringify to the empty string (0); booleans and plain objects stringify to
non-numeric text (NaN); numbers, strings and nested arrays coerce as
usual. -/
def elemToNumber : JSValue → JSNum
  | .undefined => .fin 0
  | .null => .fin 0
  | .bool _ => .nan
  | .num n => n
  | .str s => strToNumber s
  | .obj _ => .nan
  | .arr ys => arrToNumber ys

end

/-! ## The sanitizer helpers (server/llm.js lines 7 to 13) -/

/-- safeNumber(n, def): the numeric coercion of n when it is finite, else
the default (source lines 7 to 10). -/
def safeNumber (n : JSValue) (def_ : ℚ) : ℚ :=
  match jsToNumber n with
  | .fin x => x
  | _ => def_

/-- clamp(n, min, max) = Math.max(min, Math.min(max, n)) (source lines
11 to 13). -/
def clamp (n lo hi : ℚ) : ℚ :=
  max lo (min hi n)

/-- Decimal rendering of a natural number, as a JS template literal renders
an array index. -/
def natStr (n : ℕ) : String :=
  if n = 0 then "0" else String.mk (((Nat.digits 10 n).map Nat.digitChar).reverse)

/-! ## The canonical data model produced by the sanitizer

The sanitizer always returns object literals of a fixed shape, which we
capture with the structures below.  Layer and spec ids are kept as raw
`JSValue`s because the code passes any truthy id value through unchanged
(`l?.id || ...` and `vis.id || "vis_safe"` do not check the type). -/

/-- The scalar property a linear animation targets. -/
inductive TargetProp where
  | x
  | y
  | r
deriving DecidableEq

/-- A sanitized linear animation. `from` is a Lean keyword, hence the
underscores. -/
structure LinearA where
  property : TargetProp
  from_ : ℚ
  to_ : ℚ
  start : ℚ
  end_ : ℚ
deriving DecidableEq

/-- A sanitized orbit animation (the source stores the period in a field
named duration). -/
structure OrbitA where
  centerX : ℚ
  centerY : ℚ
  radius : ℚ
  duration : ℚ
deriving DecidableEq

/-- A sanitized animation entry. -/
inductive Anim where
  | linear (a : LinearA)
  | orbit (o : OrbitA)
deriving DecidableEq

/-- Sanitized circle props. -/
structure CircleP where
  x : ℚ
  y : ℚ
  r : ℚ
  fill : String
deriving DecidableEq

/-- Sanitized arrow props. -/
structure ArrowP where
  x : ℚ
  y : ℚ
  dx : ℚ
  dy : ℚ
  color : String
deriving DecidableEq

/-- Sanitized lottie props. -/
structure LottieP where
  url : String
  x : ℚ
  y : ℚ
  width : ℚ
  height : ℚ
  loop : Bool
deriving DecidableEq

/-- A sanitized layer.  Arrow and lottie layers always carry an empty
animation list in the source, so only the circle variant stores one. -/
inductive Layer where
  | circle (id : JSValue) (props : CircleP) (animations : List Anim)
  | arrow (id : JSValue) (props : ArrowP)
  | lottie (id : JSValue) (props : LottieP)

/-- The id of a sanitized layer. -/
def Layer.id : Layer → JSValue
  | .circle i _ _ => i
  | .arrow i _ => i
  | .lottie i _ => i

/-- The sanitized visualization record. -/
structure Vis where
  id : JSValue
  duration : ℚ
  fps : ℚ
  layers : List Layer

/-- The full sanitized answer: text plus visualization. -/
structure Answer where
  text : String
  visualization : Vis

/-! ## The sanitizer (server/llm.js lines 14 to 109) -/

/-- The generic fallback sentence (source line 18; the apostrophe is the
typographic U+2019 of the source). -/
def fallbackText : String :=
  "Here’s a concise explanation with a simple visualization."

/-- The text field: the trimmed value of ans.text when that is a string
with non-empty trim, else the fallback (source lines 16 to 18). -/
def textOf (ans : JSValue) : String :=
  match getField ans "text" with
  | .str s => if jsTrim s = "" then fallbackText else jsTrim s
  | _ => fallbackText

/-- vis = ans?.visualization || {} (source line 19). -/
def visOf (ans : JSValue) : JSValue :=
  let v := getField ans "visualization"
  if truthy v then v else .obj []

/-- duration = clamp(safeNumber(vis.duration, 5000), 1000, 10000)
(source line 20). -/
def durationOf (ans : JSValue) : ℚ :=
  clamp (safeNumber (getField (visOf ans) "duration") 5000) 1000 10000

/-- fps = clamp(safeNumber(vis.fps, 30), 1, 60) (source line 21). -/
def fpsOf (ans : JSValue) : ℚ :=
  clamp (safeNumber (getField (visOf ans) "fps") 30) 1 60

/-- layers = Array.isArray(vis.layers) ? vis.layers : [] (source line 22). -/
def rawLayersOf (ans : JSValue) : List JSValue :=
  match getField (visOf ans) "layers" with
  | .arr xs => xs
  | _ => []

/-- Sanitizing one animation entry of a circle layer (source lines 38 to
56): an entry whose property is "orbit" becomes a clamped orbit (its period
defaulting to the spec duration); every other entry becomes a linear
animation with property normalized to x / y / r, from and to coerced with
defaults 100 and 500, start clamped into [0, duration - 100] and end
clamped into [start + 100, duration]. -/
def sanitizeAnim (duration : ℚ) (a : JSValue) : Anim :=
  match getField a "property" with
  | .str "orbit" =>
    .orbit
      { centerX := clamp (safeNumber (getField a "centerX") 320) 0 640
        centerY := clamp (safeNumber (getField a "centerY") 200) 0 400
        radius := clamp (safeNumber (getField a "radius") 100) 10 250
        duration := clamp (safeNumber (getField a "duration") duration) 500 10000 }
  | prop =>
    let start := clamp (safeNumber (getField a "start") 0) 0 (duration - 100)
    let end_ := clamp (safeNumber (getField a "end") duration) (start + 100) duration
    .linear
      { property :=
          match prop with
          | .str "y" => .y
          | .str "r" => .r
          | _ => .x
        from_ := safeNumber (getField a "from") 100
        to_ := safeNumber (getField a "to") 500
        start := start
        end_ := end_ }

/-- Sanitizing one layer entry at index i (source lines 25 to 90): the id
is the entry id when truthy, else layer_i; a circle / arrow / lottie type
selects the variant with its clamp ranges and defaults; any other type is
dropped (none). -/
def sanitizeLayer (duration : ℚ) (i : ℕ) (l : JSValue) : Option Layer :=
  let id := if truthy (getField l "id") then getField l "id" else .str ("layer_" ++ natStr i)
  match getField l "type" with
  | .str "circle" =>
    let p := if truthy (getField l "props") then getField l "props" else .obj []
    some (.circle id
      { x := clamp (safeNumber (getField p "x") 160) 0 640
        y := clamp (safeNumber (getField p "y") 200) 0 400
        r := clamp (safeNumber (getField p "r") 16) 1 120
        fill := match getField p "fill" with | .str s => s | _ => "#3498db" }
      (match getField l "animations" with
       | .arr as_ => as_.map (sanitizeAnim duration)
       | _ => []))
  | .str "arrow" =>
    let p := if truthy (getField l "props") then getField l "props" else .obj []
    some (.arrow id
      { x := clamp (safeNumber (getField p "x") 90) 0 640
        y := clamp (safeNumber (getField p "y") 220) 0 400
        dx := clamp (safeNumber (getField p "dx") 40) (-640) 640
        dy := clamp (safeNumber (getField p "dy") 0) (-400) 400
        color := match getField p "color" with | .str s => s | _ => "#e74c3c" })
  | .str "lottie" =>
    let p := if truthy (getField l "props") then getField l "props" else .obj []
    some (.lottie id
      { url := match getField p "url" with | .str s => s | _ => "/animations/dna.json"
        x := clamp (safeNumber (getField p "x") 430) 0 640
        y := clamp (safeNumber (getField p "y") 140) 0 400
        width := clamp (safeNumber (getField p "width") 180) 40 640
        height := clamp (safeNumber (getField p "height") 180) 40 400
        loop :=
          match getField p "loop" with
          | .undefined => true
          | .null => true
          | v => truthy v })
  | _ => none

/-- layers.map((l, i) => ...).filter(Boolean) (source lines 25 and 90). -/
def sanitizeLayers (duration : ℚ) (xs : List JSValue) : List Layer :=
  xs.enum.filterMap (fun p => sanitizeLayer duration p.1 p.2)

/-- The fixed default two-layer scene installed when filtering leaves no
layers (source lines 93 to 103). -/
def defaultLayers (duration : ℚ) : List Layer :=
  [ .circle (.str "ball") { x := 120, y := 220, r := 18, fill := "#3498db" }
      [ .linear { property := .x, from_ := 120, to_ := 520, start := 0, end_ := duration - 1000 } ]
  , .arrow (.str "arrow") { x := 90, y := 220, dx := 40, dy := 0, color := "#e74c3c" } ]

/-- sanitizeAnswer (source lines 14 to 109): the total sanitizer. -/
def sanitizeAnswer (ans : JSValue) : Answer :=
  let vis := visOf ans
  let duration := durationOf ans
  let ls := sanitizeLayers duration (rawLayersOf ans)
  { text := textOf ans
    visualization :=
      { id := if truthy (getField vis "id") then getField vis "id" else .str "vis_safe"
        duration := duration
        fps := fpsOf ans
        layers := if ls.isEmpty then defaultLayers duration else ls } }

/-! ## Serializing a sanitized answer back to a JS value

Feeding a sanitized output back through the sanitizer means handing it the
object the source builds; `answerToJS` is that object. -/

/-- The JS object of a sanitized animation. -/
def animToJS : Anim → JSValue
  | .linear a =>
    .obj
      [ ("property", .str (match a.property with | .x => "x" | .y => "y" | .r => "r"))
      , ("from", .num (.fin a.from_))
      , ("to", .num (.fin a.to_))
      , ("start", .num (.fin a.start))
      , ("end", .num (.fin a.end_)) ]
  | .orbit o =>
    .obj
      [ ("property", .str "orbit")
      , ("centerX", .num (.fin o.centerX))
      , ("centerY", .num (.fin o.centerY))
      , ("radius", .num (.fin o.radius))
      , ("duration", .num (.fin o.duration)) ]

/-- The JS object of a sanitized layer. -/
def layerToJS : Layer → JSValue
  | .circle id p anims =>
    .obj
      [ ("id", id)
      , ("type", .str "circle")
      , ("props", .obj
          [ ("x", .num (.fin p.x)), ("y", .num (.fin p.y)), ("r", .num (.fin p.r))
          , ("fill", .str p.fill) ])
      , ("animations", .arr (anims.map animToJS)) ]
  | .arrow id p =>
    .obj
      [ ("id", id)
      , ("type", .str "arrow")
      , ("props", .obj
          [ ("x", .num (.fin p.x)), ("y", .num (.fin p.y))
          , ("dx", .num (.fin p.dx)), ("dy", .num (.fin p.dy))
          , ("color", .str p.color) ])
      , ("animations", .arr []) ]
  | .lottie id p =>
    .obj
      [ ("id", id)
      , ("type", .str "lottie")
      , ("props", .obj
          [ ("url", .str p.url)
          , ("x", .num (.fin p.x)), ("y", .num (.fin p.y))
          , ("width", .num (.fin p.width)), ("height", .num (.fin p.height))
          , ("loop", .bool p.loop) ])
      , ("animations", .arr []) ]

/-- The JS object of a sanitized answer (source lines 105 to 108). -/
def answerToJS (a : Answer) : JSValue :=
  .obj
    [ ("text", .str a.text)
    , ("visualization", .obj
        [ ("id", a.visualization.id)
        , ("duration", .num (.fin a.visualization.duration))
        , ("fps", .num (.fin a.visualization.fps))
        , ("layers", .arr (a.visualization.layers.map layerToJS)) ]) ]

/-! ## The structured-data extractor (server/llm.js lines 111 to 123)

extractJSON first tries JSON.parse on the whole string, then matches the
end-anchored regular expression /\x7b[\s\S]*\x7d$/ and tries JSON.parse on
the match.  We model JSON.parse with a standard fuelled recursive-descent
parser of RFC JSON into `JSValue` (later duplicate object keys shadow
earlier ones through `getField`, as in JS). -/

/-- JSON insignificant whitespace. -/
def jsonWS (c : Char) : Bool :=
  c == ' ' || c == '\t' || c == '\n' || c == '\r'

/-- Skip JSON whitespace. -/
def skipWS (cs : List Char) : List Char :=
  cs.dropWhile jsonWS

/-- Body of a JSON string literal after the opening quote: the decoded
characters and the remainder after the closing quote.  Escapes are decoded;
a \u escape outside the valid char range degenerates through Char.ofNat
(such inputs appear in no claim). -/
def parseStrAux : List Char → Option (List Char × List Char)
  | [] => none
  | '"' :: rest => some ([], rest)
  | '\\' :: 'u' :: a :: b :: c :: d :: rest =>
    if isHexDigit a && isHexDigit b && isHexDigit c && isHexDigit d then
      (parseStrAux rest).map (fun p =>
        (Char.ofNat (((hexDigitNat a * 16 + hexDigitNat b) * 16 + hexDigitNat c) * 16
          + hexDigitNat d) :: p.1, p.2))
    else none
  | '\\' :: e :: rest =>
    let esc : Option Char :=
      if e == '"' then some '"'
      else if e == '\\' then some '\\'
      else if e == '/' then some '/'
      else if e == 'b' then some '\x08'
      else if e == 'f' then some '\x0c'
      else if e == 'n' then some '\n'
      else if e == 'r' then some '\r'
      else if e == 't' then some '\t'
      else none
    match esc with
    | some ec => (parseStrAux rest).map (fun p => (ec :: p.1, p.2))
    | none => none
  | c :: rest =>
    if c.toNat < 32 then none
    else (parseStrAux rest).map (fun p => (c :: p.1, p.2))

/-- A JSON number literal: optional minus, an integer part without leading
zeros, optional fraction, optional exponent; returns the value and the
remainder. -/
def parseJNum (cs : List Char) : Option (ℚ × List Char) :=
  let (neg, cs1) : Bool × List Char :=
    match cs with
    | '-' :: r => (true, r)
    | r => (false, r)
  let intPart := cs1.takeWhile Char.isDigit
  let r2 := cs1.dropWhile Char.isDigit
  if intPart.isEmpty then none
  else if intPart.length > 1 && intPart.headD '0' == '0' then none
  else
    let withFrac : Option (ℚ × List Char) :=
      match r2 with
      | '.' :: r3 =>
        let frac := r3.takeWhile Char.isDigit
        if frac.isEmpty then none
        else
          some ((digitsToNat intPart : ℚ) + (digitsToNat frac : ℚ) / (10 : ℚ) ^ frac.length,
            r3.dropWhile Char.isDigit)
      | _ => some ((digitsToNat intPart : ℚ), r2)
    match withFrac with
    | none => none
    | some (v, r4) =>
      let withExp : Option (ℚ × List Char) :=
        match r4 with
        | e :: r5 =>
          if e == 'e' || e == 'E' then
            let (sgn, r6) : ℤ × List Char :=
              match r5 with
              | '+' :: r => (1, r)
              | '-' :: r => (-1, r)
              | r => (1, r)
            let ds := r6.takeWhile Char.isDigit
            if ds.isEmpty then none
            else some (v * (10 : ℚ) ^ (sgn * (digitsToNat ds : ℤ)), r6.dropWhile Char.isDigit)
          else some (v, r4)
        | [] => some (v, r4)
      withExp.map (fun p => (if neg then -p.1 else p.1, p.2))

mutual

/-- A JSON value, by recursive descent with fuel (the fuel passed by
`jsonParse` always suffices; running out yields a parse failure). -/
def parseVal (fuel : ℕ) (cs : List Char) : Option (JSValue × List Char) :=
  match fuel with
  | 0 => none
  | fuel + 1 =>
    match skipWS cs with
    | 'n' :: 'u' :: 'l' :: 'l' :: rest => some (.null, rest)
    | 't' :: 'r' :: 'u' :: 'e' :: rest => some (.bool true, rest)
    | 'f' :: 'a' :: 'l' :: 's' :: 'e' :: rest => some (.bool false, rest)
    | '"' :: rest => (parseStrAux rest).map (fun p => (.str (String.mk p.1), p.2))
    | '{' :: rest =>
      match skipWS rest with
      | '}' :: rest2 => some (.obj [], rest2)
      | _ => (parseMembers fuel rest).map (fun p => (.obj p.1, p.2))
    | '[' :: rest =>
      match skipWS rest with
      | ']' :: rest2 => some (.arr [], rest2)
      | _ => (parseElems fuel rest).map (fun p => (.arr p.1, p.2))
    | rest => (parseJNum rest).map (fun p => (.num (.fin p.1), p.2))

/-- One or more key-value members of a JSON object, up to the closing
brace. -/
def parseMembers (fuel : ℕ) (cs : List Char) : Option (List (String × JSValue) × List Char) :=
  match fuel with
  | 0 => none
  | fuel + 1 =>
    match skipWS cs with
    | '"' :: rest =>
      match parseStrAux rest with
      | none => none
      | some (key, rest2) =>
        match skipWS rest2 with
        | ':' :: rest3 =>
          match parseVal fuel rest3 with
          | none => none
          | some (v, rest4) =>
            match skipWS rest4 with
            | ',' :: rest5 =>
              (parseMembers fuel rest5).map (fun p => ((String.mk key, v) :: p.1, p.2))
            | '}' :: rest5 => some ([(String.mk key, v)], rest5)
            | _ => none
        | _ => none
    | _ => none

/-- One or more elements of a JSON array, up to the closing bracket. -/
def parseElems (fuel : ℕ) (cs : List Char) : Option (List JSValue × List Char) :=
  match fuel with
  | 0 => none
  | fuel + 1 =>
    match parseVal fuel cs with
    | none => none
    | some (v, rest) =>
      match skipWS rest with
      | ',' :: rest2 => (parseElems fuel rest2).map (fun p => (v :: p.1, p.2))
      | ']' :: rest2 => some ([v], rest2)
      | _ => none

end

/-- JSON.parse: the whole string must be one JSON value surrounded only by
whitespace. -/
def jsonParse (s : String) : Option JSValue :=
  match parseVal (2 * s.length + 2) s.toList with
  | some (v, rest) => if skipWS rest = [] then some v else none
  | none => none

/-- The match of text.match(/\x7b[\s\S]*\x7d$/): without the multiline
flag the dollar anchors at the very end of the string, so a match exists
exactly when the string ends with a closing brace and contains an opening
brace, and the (leftmost, greedy) match runs from the first opening brace
to the end. -/
def braceMatch (s : String) : Option String :=
  let cs := s.toList
  if cs.getLast? == some '}' && cs.contains '{' then
    some (String.mk (cs.dropWhile (fun c => c != '{')))
  else none

/-- extractJSON (source lines 111 to 123): direct parse, then parse of the
end-anchored brace match; null when both fail or the input is falsy. -/
def extractJSON (s : String) : Option JSValue :=
  if s = "" then none
  else
    match jsonParse s with
    | some v => some v
    | none =>
      match braceMatch s with
      | some m => jsonParse m
      | none => none

/-- The backtick character (code 96). -/
def fenceChar : Char := Char.ofNat 96

/-- raw.replace(/^```json\s*/i, ""): remove a leading triple-backtick json
marker (tag case-insensitive) and the whitespace after it, when present at
the very start. -/
def stripLeadingFence (s : String) : String :=
  match s.toList with
  | a :: b :: c :: j :: s2 :: o :: n :: rest =>
    if a == fenceChar && b == fenceChar && c == fenceChar &&
       (j == 'j' || j == 'J') && (s2 == 's' || s2 == 'S') &&
       (o == 'o' || o == 'O') && (n == 'n' || n == 'N') then
      String.mk (rest.dropWhile jsWS)
    else s
  | _ => s

/-- raw.replace(/```$/, ""): remove a trailing triple backtick, when
present at the very end. -/
def stripTrailingFence (s : String) : String :=
  let cs := s.toList
  if [fenceChar, fenceChar, fenceChar].isSuffixOf cs then
    String.mk (cs.take (cs.length - 3))
  else s

/-- The code-fence cleanup of askOllama (source line 244). -/
def stripFences (s : String) : String :=
  stripTrailingFence (stripLeadingFence s)

/-- The tolerant extraction of askOllama (source lines 241 to 246):
extractJSON on the raw text, and on failure extractJSON again after
code-fence removal. -/
def ollamaExtract (raw : String) : Option JSValue :=
  match extractJSON raw with
  | some p => some p
  | none => extractJSON (stripFences raw)

/-! ## The animation evaluator (client/src/App.tsx lines 88 to 147)

The draw callback receives the spec over the wire, typed loosely: start,
end, the orbit period, fps, layers, animations, fill and color may all be
absent.  The C-prefixed structures mirror those client types.  The draw
callback reads nothing from a layer except type, props and animations, so
ids are omitted here; runtime layers of type lottie reach the client even
though the TS Layer union omits them, and draw has no branch for them. -/

/-- A client-side linear animation (TS type LinearAnim). -/
structure CLinear where
  property : TargetProp
  from_ : ℚ
  to_ : ℚ
  start? : Option ℚ
  end? : Option ℚ

/-- A client-side orbit animation (TS type OrbitAnim). -/
structure COrbit where
  centerX : ℚ
  centerY : ℚ
  radius : ℚ
  duration? : Option ℚ

/-- A client-side animation. -/
inductive CAnim where
  | linear (a : CLinear)
  | orbit (o : COrbit)

/-- Client-side circle props. -/
structure CCircleP where
  x : ℚ
  y : ℚ
  r : ℚ
  fill? : Option String

/-- Client-side arrow props. -/
structure CArrowP where
  x : ℚ
  y : ℚ
  dx : ℚ
  dy : ℚ
  color? : Option String

/-- A client-side layer at runtime: circle, arrow, or a lottie layer (from
which draw reads nothing, having no branch for it). -/
inductive CLayer where
  | circle (props : CCircleP) (animations? : Option (List CAnim))
  | arrow (props : CArrowP) (animations? : Option (List CAnim))
  | lottie

/-- The client-side spec (TS type VisSpec; id unread by draw). -/
structure CVis where
  duration : ℚ
  fps? : Option ℚ
  layers? : Option (List CLayer)

/-- One draw call emitted to the canvas: a filled circle or a stroked
arrow (the arrowhead is derived from the same five values). -/
inductive RenderState where
  | circle (x y r : ℝ) (fill : String)
  | arrow (x y dx dy : ℝ) (color : String)

/-- The mutable (x, y, r) the draw loop threads through the animations of a
circle layer. -/
structure CircleState where
  x : ℝ
  y : ℝ
  r : ℝ

/-- Truncation toward zero, as the JS remainder uses. -/
def ratTrunc (q : ℚ) : ℤ :=
  if 0 ≤ q then ⌊q⌋ else -⌊-q⌋

/-- The JS remainder a % b = a - b * trunc(a / b) for finite operands and
nonzero b (for b = 0 the JS result is NaN, which the source then maps to 0
with || 0; Lean division by zero makes the quotient 0, matching that
guard where the value is used). -/
def jsMod (a b : ℚ) : ℚ :=
  a - b * ratTrunc (a / b)

/-- dur = spec.duration || 4000 (App.tsx line 90). -/
def durOf (spec : CVis) : ℚ :=
  if spec.duration = 0 then 4000 else spec.duration

/-- orbitDur = a.duration || dur (App.tsx line 102): the period field when
it is a nonzero number, else the spec duration. -/
def orbitDur (o : COrbit) (dur : ℚ) : ℚ :=
  match o.duration? with
  | some d => if d = 0 then dur else d
  | none => dur

/-- fill || default and color || default on strings (App.tsx lines 120 and
125): the string when present and non-empty, else the default. -/
def jsOrStr (o : Option String) (d : String) : String :=
  match o with
  | some s => if s = "" then d else s
  | none => d

/-- One pass of the animation loop body (App.tsx lines 100 to 117) over the
running (x, y, r) state: an orbit overrides x and y from the phase of t in
its period; any other animation interpolates its target property linearly
with hold-at-edges clamping. -/
noncomputable def applyAnim (dur t : ℚ) (st : CircleState) (a : CAnim) : CircleState :=
  match a with
  | .orbit o =>
    let od := orbitDur o dur
    let p := jsMod t od / od
    let ang : ℝ := (p : ℝ) * Real.pi * 2
    { st with
      x := (o.centerX : ℝ) + (o.radius : ℝ) * Real.cos ang
      y := (o.centerY : ℝ) + (o.radius : ℝ) * Real.sin ang }
  | .linear la =>
    let s := la.start?.getD 0
    let e := la.end?.getD dur
    let span := max (e - s) 1
    let prog := min (max ((t - s) / span) 0) 1
    let val := la.from_ + (la.to_ - la.from_) * prog
    match la.property with
    | .x => { st with x := (val : ℝ) }
    | .y => { st with y := (val : ℝ) }
    | .r => { st with r := (val : ℝ) }

/-- The per-layer body of the forEach (App.tsx lines 95 to 142): a circle
layer folds its animations over its base props and emits a circle draw; an
arrow layer emits its base props unchanged; any other layer emits
nothing. -/
noncomputable def drawLayer (dur t : ℚ) : CLayer → Option RenderState
  | .circle props anims? =>
    let st := (anims?.getD []).foldl (applyAnim dur t)
      { x := (props.x : ℝ), y := (props.y : ℝ), r := (props.r : ℝ) }
    some (.circle st.x st.y st.r (jsOrStr props.fill? "#3498db"))
  | .arrow props _ =>
    some (.arrow (props.x : ℝ) (props.y : ℝ) (props.dx : ℝ) (props.dy : ℝ)
      (jsOrStr props.color? "#e74c3c"))
  | .lottie => none

/-- The draw callback as the evaluator (App.tsx lines 88 to 142): with
tRaw the elapsed wall-clock time now - startTime, t is tRaw clamped from
above at dur, and the layers emit their draw calls in order. -/
noncomputable def draw (spec : CVis) (tRaw : ℚ) : List RenderState :=
  let dur := durOf spec
  let t := min tRaw dur
  (spec.layers?.getD []).filterMap (drawLayer dur t)

/-! ## From sanitized spec to client spec

A sanitized answer reaches the client as JSON; every optional client field
is present on it. -/

/-- A sanitized animation as the client receives it. -/
def animToClient : Anim → CAnim
  | .linear a =>
    .linear { property := a.property, from_ := a.from_, to_ := a.to_,
              start? := some a.start, end? := some a.end_ }
  | .orbit o =>
    .orbit { centerX := o.centerX, centerY := o.centerY, radius := o.radius,
             duration? := some o.duration }

/-- A sanitized layer as the client receives it. -/
def layerToClient : Layer → CLayer
  | .circle _ p anims =>
    .circle { x := p.x, y := p.y, r := p.r, fill? := some p.fill }
      (some (anims.map animToClient))
  | .arrow _ p =>
    .arrow { x := p.x, y := p.y, dx := p.dx, dy := p.dy, color? := some p.color }
      (some [])
  | .lottie _ _ => .lottie

/-- A sanitized visualization as the client receives it. -/
def clientOf (v : Vis) : CVis :=
  { duration := v.duration, fps? := some v.fps,
    layers? := some (v.layers.map layerToClient) }

/-! ## Invariant predicates and accessors used by the claim statements -/

/-- The animations of a sanitized layer (arrow and lottie layers always
carry an empty list). -/
def Layer.anims : Layer → List Anim
  | .circle _ _ as_ => as_
  | .arrow _ _ => []
  | .lottie _ _ => []

/-- Full range invariant of one sanitized animation: a linear window sits
inside [0, duration] with at least 100 ms of span, and orbit parameters sit
in their clamp ranges. -/
def AnimInv (dur : ℚ) : Anim → Prop
  | .linear la => 0 ≤ la.start ∧ la.start ≤ dur - 100 ∧ la.start + 100 ≤ la.end_ ∧ la.end_ ≤ dur
  | .orbit o =>
    0 ≤ o.centerX ∧ o.centerX ≤ 640 ∧ 0 ≤ o.centerY ∧ o.centerY ≤ 400 ∧
    10 ≤ o.radius ∧ o.radius ≤ 250 ∧ 500 ≤ o.duration ∧ o.duration ≤ 10000

/-- Weak window invariant: the window sits inside [0, duration], and has at
least 100 ms of span whenever the duration is at least 1100. -/
def AnimWindowWeak (dur : ℚ) : Anim → Prop
  | .linear la => 0 ≤ la.start ∧ la.end_ ≤ dur ∧ (1100 ≤ dur → la.start + 100 ≤ la.end_)
  | .orbit _ => True

/-- Clamp-range invariant of the props of one sanitized layer. -/
def PropsInv : Layer → Prop
  | .circle _ p _ => 0 ≤ p.x ∧ p.x ≤ 640 ∧ 0 ≤ p.y ∧ p.y ≤ 400 ∧ 1 ≤ p.r ∧ p.r ≤ 120
  | .arrow _ p =>
    0 ≤ p.x ∧ p.x ≤ 640 ∧ 0 ≤ p.y ∧ p.y ≤ 400 ∧
    -640 ≤ p.dx ∧ p.dx ≤ 640 ∧ -400 ≤ p.dy ∧ p.dy ≤ 400
  | .lottie _ p =>
    0 ≤ p.x ∧ p.x ≤ 640 ∧ 0 ≤ p.y ∧ p.y ≤ 400 ∧
    40 ≤ p.width ∧ p.width ≤ 640 ∧ 40 ≤ p.height ∧ p.height ≤ 400

/-- Full invariant of one sanitized layer: truthy id, props in range,
every animation in range. -/
def LayerInv (dur : ℚ) (l : Layer) : Prop :=
  truthy l.id = true ∧ PropsInv l ∧ ∀ a ∈ l.anims, AnimInv dur a

/-- Every linear animation window of the answer has at least 100 ms of
span (the part of the section 3 invariant the default scene can break). -/
def AnimWindowsOK (a : Answer) : Prop :=
  ∀ l ∈ a.visualization.layers, ∀ an ∈ l.anims,
    match an with
    | .linear la => la.start + 100 ≤ la.end_
    | .orbit _ => True

/-- The from field of a linear animation. -/
def animFrom? : Anim → Option ℚ
  | .linear la => some la.from_
  | .orbit _ => none

/-- The to field of a linear animation. -/
def animTo? : Anim → Option ℚ
  | .linear la => some la.to_
  | .orbit _ => none

/-- The end field of the first animation of the first layer, when that is
a circle layer opening with a linear animation. -/
def firstAnimEnd? (a : Answer) : Option ℚ :=
  match a.visualization.layers with
  | .circle _ _ (.linear la :: _) :: _ => some la.end_
  | _ => none

mutual

/-- Whether every number in a JS value is finite (no NaN or infinity
anywhere inside). -/
def finiteNums : JSValue → Bool
  | .undefined => true
  | .null => true
  | .bool _ => true
  | .str _ => true
  | .num n => n.isFinite
  | .arr xs => finiteList xs
  | .obj fs => finiteFields fs

/-- finiteNums over a list of values. -/
def finiteList : List JSValue → Bool
  | [] => true
  | x :: xs => finiteNums x && finiteList xs

/-- finiteNums over the fields of an object. -/
def finiteFields : List (String × JSValue) → Bool
  | [] => true
  | (_, x) :: fs => finiteNums x && finiteFields fs

end

/-- Whether a client layer is a lottie layer. -/
def isLottie : CLayer → Bool
  | .lottie => true
  | _ => false

/-- Total per-layer evaluation (the value of drawLayer on the circle and
arrow layers it is some on; the junk value on lottie layers is never
reached under the filter used with it). -/
noncomputable def drawLayerD (dur t : ℚ) (l : CLayer) : RenderState :=
  (drawLayer dur t l).getD (.arrow 0 0 0 0 "")

/-- The linear interpolation formula exactly as the specification states
it: from + (to - from) * clamp((t - start) / max(end - start, 1), 0, 1). -/
def linearValue (from_ to_ start end_ t : ℚ) : ℚ :=
  from_ + (to_ - from_) * (min (max ((t - start) / max (end_ - start) 1) 0) 1)

/-- Overwriting one target property of the running circle state. -/
noncomputable def setTarget (st : CircleState) (p : TargetProp) (v : ℚ) : CircleState :=
  match p with
  | .x => { st with x := (v : ℝ) }
  | .y => { st with y := (v : ℝ) }
  | .r => { st with r := (v : ℝ) }

/-- The x of the first render state, when that is a circle. -/
def headCircleX? : List RenderState → Option ℝ
  | .circle x _ _ _ :: _ => some x
  | _ => none

/-! ## Concrete inputs used by counterexamples and witnesses -/

/-- An answer whose visualization asks for the minimum duration and
supplies no layers, so the default scene is installed at duration 1000. -/
def vDur1000 : JSValue :=
  .obj [("visualization", .obj [("duration", .num (.fin 1000))])]

/-- An answer with two circle layers that both carry the id "dup". -/
def vDup : JSValue :=
  .obj [("visualization", .obj [("layers", .arr
    [ .obj [("id", .str "dup"), ("type", .str "circle")]
    , .obj [("id", .str "dup"), ("type", .str "circle")] ])])]

/-- An answer whose only layer is a lottie layer. -/
def vLottie : JSValue :=
  .obj [("visualization", .obj [("layers", .arr [.obj [("type", .str "lottie")]])])]

/-- The raw model output of the end-to-end scenario: prose followed by a
code-fenced JSON object. -/
def raw3 : String :=
  "Sure! ```json\n\x7b\"text\":\"ok\",\"visualization\":\x7b\"duration\":20000,\"layers\":[\x7b\"type\":\"circle\",\"props\":\x7b\"x\":-10,\"r\":0\x7d\x7d]\x7d\x7d\n```"

/-- The object embedded in the fenced block of raw3. -/
def emb3 : JSValue :=
  .obj
    [ ("text", .str "ok")
    , ("visualization", .obj
        [ ("duration", .num (.fin 20000))
        , ("layers", .arr
            [ .obj
                [ ("type", .str "circle")
                , ("props", .obj [("x", .num (.fin (-10))), ("r", .num (.fin 0))]) ]])])]

/-- A client spec holding one circle with the linear boundary animation of
the claim, in a 5000 ms spec. -/
def spec7 : CVis :=
  { duration := 5000, fps? := some 30,
    layers? := some
      [ .circle { x := 160, y := 220, r := 16, fill? := some "#3498db" }
          (some [.linear { property := .x, from_ := 100, to_ := 500,
                           start? := some 0, end? := some 1000 }]) ] }

/-- A client spec holding one circle with the orbit animation of the
claim, in a 4000 ms spec. -/
def spec8 : CVis :=
  { duration := 4000, fps? := some 30,
    layers? := some
      [ .circle { x := 220, y := 200, r := 12, fill? := some "#3498db" }
          (some [.orbit { centerX := 320, centerY := 200, radius := 100,
                          duration? := some 4000 }]) ] }

/-- An orbit animation carrying a negative period. -/
def negOrbit : COrbit :=
  { centerX := 320, centerY := 200, radius := 100, duration? := some (-4000) }

/-- All numeric fields of a sanitized answer, in order: duration, fps, and
the numeric props and animation parameters of each layer (ids are opaque
values, not numeric fields of the canonical model). -/
def specNumbers (a : Answer) : List ℚ :=
  a.visualization.duration :: a.visualization.fps ::
    a.visualization.layers.flatMap (fun l =>
      match l with
      | .circle _ p as_ =>
        [p.x, p.y, p.r] ++ as_.flatMap (fun an =>
          match an with
          | .linear la => [la.from_, la.to_, la.start, la.end_]
          | .orbit o => [o.centerX, o.centerY, o.radius, o.duration])
      | .arrow _ p => [p.x, p.y, p.dx, p.dy]
      | .lottie _ p => [p.x, p.y, p.width, p.height])

/-! ## Generic helper lemmas -/

theorem le_clamp (n lo hi : ℚ) : lo ≤ clamp n lo hi :=
  le_max_left _ _

theorem clamp_le (n lo hi : ℚ) (h : lo ≤ hi) : clamp n lo hi ≤ hi :=
  max_le h (min_le_left _ _)

theorem clamp_eq_of (n lo hi : ℚ) (h1 : lo ≤ n) (h2 : n ≤ hi) : clamp n lo hi = n := by
  unfold clamp
  rw [min_eq_right h2, max_eq_right h1]

theorem dropWhile_idem (p : Char → Bool) (l : List Char) :
    (l.dropWhile p).dropWhile p = l.dropWhile p := by
  induction l with
  | nil => rfl
  | cons a l ih =>
    by_cases h : p a
    · simp [List.dropWhile_cons, h, ih]
    · simp [List.dropWhile_cons, h]

theorem head_dropWhile_false (p : Char → Bool) :
    ∀ (l : List Char) (a : Char) (l' : List Char), l.dropWhile p = a :: l' → p a = false := by
  intro l
  induction l with
  | nil => intro a l' h; simp at h
  | cons b l ih =>
    intro a l' h
    rw [List.dropWhile_cons] at h
    by_cases hb : p b
    · rw [if_pos hb] at h
      exact ih a l' h
    · rw [if_neg hb] at h
      obtain ⟨rfl, _⟩ := List.cons.inj h
      exact Bool.eq_false_iff.mpr hb

theorem dropWhile_eq_self_of_head (p : Char → Bool) (l : List Char)
    (h : ∀ a l', l = a :: l' → p a = false) : l.dropWhile p = l := by
  cases l with
  | nil => rfl
  | cons a l => rw [List.dropWhile_cons, if_neg (by rw [h a l rfl]; simp)]

theorem getLast?_dropWhile (p : Char → Bool) (l : List Char)
    (h : l.dropWhile p ≠ []) : (l.dropWhile p).getLast? = l.getLast? := by
  induction l with
  | nil => simp at h
  | cons b l ih =>
    rw [List.dropWhile_cons]
    by_cases hb : p b
    · rw [List.dropWhile_cons, if_pos hb] at h
      rw [if_pos hb, ih h]
      cases l with
      | nil => simp [List.dropWhile] at h
      | cons c l => rw [List.getLast?_cons_cons]
    · rw [if_neg hb]

theorem trimChars_idem (cs : List Char) : trimChars (trimChars cs) = trimChars cs := by
  unfold trimChars
  by_cases hZ : ((cs.dropWhile jsWS).reverse.dropWhile jsWS) = []
  · rw [hZ]; rfl
  · set Y := cs.dropWhile jsWS with hY
    set Z := Y.reverse.dropWhile jsWS with hZdef
    have hstep1 : Z.reverse.dropWhile jsWS = Z.reverse := by
      apply dropWhile_eq_self_of_head
      intro a l' hcons
      have h1 : Z.reverse.head? = some a := by rw [hcons]; rfl
      rw [List.head?_reverse] at h1
      have h2 : Z.getLast? = Y.reverse.getLast? := getLast?_dropWhile _ _ hZ
      rw [h2, List.getLast?_reverse] at h1
      cases hYc : Y with
      | nil => rw [hYc] at h1; simp at h1
      | cons b Yl =>
        rw [hYc] at h1
        simp only [List.head?_cons, Option.some.injEq] at h1
        subst h1
        exact head_dropWhile_false jsWS cs b Yl (by rw [← hY, hYc])
    rw [hstep1, List.reverse_reverse]
    have hstep2 : Z.dropWhile jsWS = Z := by
      rw [hZdef]; exact dropWhile_idem _ _
    rw [hstep2]

theorem jsTrim_idem (s : String) : jsTrim (jsTrim s) = jsTrim s := by
  unfold jsTrim
  exact congrArg String.mk (trimChars_idem s.toList)

theorem str_append_data (s t : String) : (s ++ t).data = s.data ++ t.data := by
  cases s; cases t; rfl

theorem digitChar_inj_lt :
    ∀ a b : Fin 10, Nat.digitChar a = Nat.digitChar b → (a : ℕ) = b := by decide

theorem map_digitChar_inj :
    ∀ (l₁ l₂ : List ℕ), (∀ x ∈ l₁, x < 10) → (∀ x ∈ l₂, x < 10) →
      l₁.map Nat.digitChar = l₂.map Nat.digitChar → l₁ = l₂ := by
  intro l₁
  induction l₁ with
  | nil =>
    intro l₂ _ _ h
    cases l₂ with
    | nil => rfl
    | cons b l => simp at h
  | cons a l ih =>
    intro l₂ h₁ h₂ h
    cases l₂ with
    | nil => simp at h
    | cons b l' =>
      simp only [List.map_cons, List.cons.injEq] at h
      have ha : a < 10 := h₁ a (by simp)
      have hb : b < 10 := h₂ b (by simp)
      have hab : a = b := digitChar_inj_lt ⟨a, ha⟩ ⟨b, hb⟩ h.1
      rw [hab, ih l' (fun x hx => h₁ x (by simp [hx])) (fun x hx => h₂ x (by simp [hx])) h.2]

theorem natStr_inj : ∀ {m n : ℕ}, natStr m = natStr n → m = n := by
  have key : ∀ k : ℕ, k ≠ 0 → ∀ j : ℕ,
      String.mk (((Nat.digits 10 k).map Nat.digitChar).reverse) = natStr j → k = j := by
    intro k hk j h
    unfold natStr at h
    by_cases hj : j = 0
    · rw [if_pos hj] at h
      have h2 := congrArg String.data h
      simp only [String.data] at h2
      have h3 : (Nat.digits 10 k).map Nat.digitChar = ['0'] := by
        have := congrArg List.reverse h2
        rw [List.reverse_reverse] at this
        rw [this]; rfl
      have h4 : Nat.digits 10 k = [0] :=
        map_digitChar_inj _ [0] (fun x hx => Nat.digits_lt_base (by norm_num) hx)
          (by intro x hx; simp at hx; omega) (by rw [h3]; rfl)
      have h5 : k = Nat.ofDigits 10 (Nat.digits 10 k) := (Nat.ofDigits_digits 10 k).symm
      rw [h4] at h5
      simp [Nat.ofDigits] at h5
      exact absurd h5 hk
    · rw [if_neg hj] at h
      have h2 := congrArg String.data h
      simp only [String.data] at h2
      have h3 := congrArg List.reverse h2
      rw [List.reverse_reverse, List.reverse_reverse] at h3
      have h4 : Nat.digits 10 k = Nat.digits 10 j :=
        map_digitChar_inj _ _ (fun x hx => Nat.digits_lt_base (by norm_num) hx)
          (fun x hx => Nat.digits_lt_base (by norm_num) hx) h3
      exact Nat.digits.injective 10 h4
  intro m n h
  by_cases hm : m = 0 <;> by_cases hn : n = 0
  · rw [hm, hn]
  · subst hm
    have h' : natStr n = natStr 0 := h.symm
    rw [natStr, if_neg hn] at h'
    exact (key n hn 0 h').symm
  · subst hn
    exact key m hm 0 (by rw [natStr, if_neg hm] at h; exact h)
  · exact key m hm n (by rw [natStr, if_neg hm] at h; exact h)

theorem layerStr_inj {i j : ℕ} (h : ("layer_" ++ natStr i : String) = "layer_" ++ natStr j) :
    i = j := by
  have h2 := congrArg String.data h
  rw [str_append_data, str_append_data] at h2
  have h3 := List.append_cancel_left h2
  have h4 : natStr i = natStr j := by
    cases hi : natStr i; cases hj : natStr j
    rw [hi, hj] at h3
    exact congrArg String.mk h3
  exact natStr_inj h4

theorem layerStr_ne_empty (i : ℕ) : ("layer_" ++ natStr i : String) ≠ "" := by
  intro h
  have h2 := congrArg String.data h
  rw [str_append_data] at h2
  simp at h2

theorem map_eq_self_of {α : Type} (f : α → α) (l : List α) (h : ∀ a ∈ l, f a = a) :
    l.map f = l := by
  induction l with
  | nil => rfl
  | cons a l ih =>
    rw [List.map_cons, h a (by simp), ih (fun x hx => h x (by simp [hx]))]

/-! ## Sanitizer invariant lemmas -/

theorem sanitizeAnim_inv (dur : ℚ) (hd : 1000 ≤ dur) (a : JSValue) :
    AnimInv dur (sanitizeAnim dur a) := by
  unfold sanitizeAnim
  split
  · exact ⟨le_clamp _ _ _, clamp_le _ _ _ (by norm_num), le_clamp _ _ _,
      clamp_le _ _ _ (by norm_num), le_clamp _ _ _, clamp_le _ _ _ (by norm_num),
      le_clamp _ _ _, clamp_le _ _ _ (by norm_num)⟩
  · have hs1 : (0 : ℚ) ≤ clamp (safeNumber (getField a "start") 0) 0 (dur - 100) :=
      le_clamp _ _ _
    have hs2 : clamp (safeNumber (getField a "start") 0) 0 (dur - 100) ≤ dur - 100 :=
      clamp_le _ _ _ (by linarith)
    exact ⟨hs1, hs2, le_clamp _ _ _, clamp_le _ _ _ (by linarith)⟩

theorem sanitizeLayer_inv (dur : ℚ) (hd : 1000 ≤ dur) (i : ℕ) (l : JSValue) (out : Layer)
    (h : sanitizeLayer dur i l = some out) : LayerInv dur out := by
  have hid : truthy (if truthy (getField l "id") = true then getField l "id"
      else .str ("layer_" ++ natStr i)) = true := by
    by_cases ht : truthy (getField l "id") = true
    · rw [if_pos ht]; exact ht
    · rw [if_neg ht]
      show (("layer_" ++ natStr i : String) != "") = true
      simpa using layerStr_ne_empty i
  unfold sanitizeLayer at h
  dsimp only [] at h
  split at h
  · -- circle
    injection h with h
    subst h
    refine ⟨hid, ⟨le_clamp _ _ _, clamp_le _ _ _ (by norm_num), le_clamp _ _ _,
      clamp_le _ _ _ (by norm_num), le_clamp _ _ _, clamp_le _ _ _ (by norm_num)⟩, ?_⟩
    intro an han
    simp only [Layer.anims] at han
    rcases hm : getField l "animations" with _ | _ | _ | _ | _ | as_ | _ <;>
      rw [hm] at han <;> simp only [List.mem_map] at han
    all_goals first
      | exact absurd han (List.not_mem_nil an)
      | (obtain ⟨a0, _, rfl⟩ := han; exact sanitizeAnim_inv dur hd a0)
  · -- arrow
    injection h with h
    subst h
    refine ⟨hid, ⟨le_clamp _ _ _, clamp_le _ _ _ (by norm_num), le_clamp _ _ _,
      clamp_le _ _ _ (by norm_num), le_clamp _ _ _, clamp_le _ _ _ (by norm_num),
      le_clamp _ _ _, clamp_le _ _ _ (by norm_num)⟩, ?_⟩
    intro an han
    exact absurd han (List.not_mem_nil an)
  · -- lottie
    injection h with h
    subst h
    refine ⟨hid, ⟨le_clamp _ _ _, clamp_le _ _ _ (by norm_num), le_clamp _ _ _,
      clamp_le _ _ _ (by norm_num), le_clamp _ _ _, clamp_le _ _ _ (by norm_num),
      le_clamp _ _ _, clamp_le _ _ _ (by norm_num)⟩, ?_⟩
    intro an han
    exact absurd han (List.not_mem_nil an)
  · exact absurd h (by simp)

theorem defaultLayers_inv (dur : ℚ) (hd : 1100 ≤ dur) :
    ∀ l ∈ defaultLayers dur, LayerInv dur l := by
  intro l hl
  simp only [defaultLayers, List.mem_cons, List.not_mem_nil, or_false] at hl
  rcases hl with rfl | rfl
  · refine ⟨rfl, by norm_num [PropsInv], ?_⟩
    intro an han
    simp only [Layer.anims, List.mem_singleton] at han
    subst han
    exact ⟨by norm_num, by dsimp only; linarith, by dsimp only; linarith,
      by dsimp only; linarith⟩
  · exact ⟨rfl, by norm_num [PropsInv], fun an han => absurd han (List.not_mem_nil an)⟩

theorem defaultLayers_weak (dur : ℚ) :
    ∀ l ∈ defaultLayers dur, truthy l.id = true ∧ PropsInv l ∧
      ∀ an ∈ l.anims, AnimWindowWeak dur an := by
  intro l hl
  simp only [defaultLayers, List.mem_cons, List.not_mem_nil, or_false] at hl
  rcases hl with rfl | rfl
  · refine ⟨rfl, by norm_num [PropsInv], ?_⟩
    intro an han
    simp only [Layer.anims, List.mem_singleton] at han
    subst han
    exact ⟨by norm_num, by dsimp only; linarith, fun h1100 => by dsimp only; linarith⟩
  · exact ⟨rfl, by norm_num [PropsInv], fun an han => absurd han (List.not_mem_nil an)⟩

theorem animInv_weak (dur : ℚ) (a : Anim) (h : AnimInv dur a) : AnimWindowWeak dur a := by
  cases a with
  | linear la =>
    obtain ⟨h1, h2, h3, h4⟩ := h
    exact ⟨h1, h4, fun _ => h3⟩
  | orbit o => trivial

theorem durationOf_bounds (v : JSValue) : 1000 ≤ durationOf v ∧ durationOf v ≤ 10000 :=
  ⟨le_clamp _ _ _, clamp_le _ _ _ (by norm_num)⟩

theorem fpsOf_bounds (v : JSValue) : 1 ≤ fpsOf v ∧ fpsOf v ≤ 60 :=
  ⟨le_clamp _ _ _, clamp_le _ _ _ (by norm_num)⟩

theorem sanitize_duration (v : JSValue) :
    (sanitizeAnswer v).visualization.duration = durationOf v := rfl

theorem sanitize_fps (v : JSValue) : (sanitizeAnswer v).visualization.fps = fpsOf v := rfl

theorem sanitize_layers (v : JSValue) :
    (sanitizeAnswer v).visualization.layers =
      if (sanitizeLayers (durationOf v) (rawLayersOf v)).isEmpty then
        defaultLayers (durationOf v)
      else sanitizeLayers (durationOf v) (rawLayersOf v) := rfl

theorem sanitize_id (v : JSValue) :
    (sanitizeAnswer v).visualization.id =
      if truthy (getField (visOf v) "id") = true then getField (visOf v) "id"
      else .str "vis_safe" := rfl

theorem sanitize_id_truthy (v : JSValue) :
    truthy (sanitizeAnswer v).visualization.id = true := by
  rw [sanitize_id]
  by_cases h : truthy (getField (visOf v) "id") = true
  · rw [if_pos h]; exact h
  · rw [if_neg h]; rfl

theorem sanitize_layers_ne_nil (v : JSValue) :
    (sanitizeAnswer v).visualization.layers ≠ [] := by
  rw [sanitize_layers]
  split
  · simp [defaultLayers]
  · next h => exact fun hc => h (by rw [hc]; rfl)

theorem sanitize_layers_weak (v : JSValue) :
    ∀ l ∈ (sanitizeAnswer v).visualization.layers,
      truthy l.id = true ∧ PropsInv l ∧
        ∀ an ∈ l.anims, AnimWindowWeak (durationOf v) an := by
  rw [sanitize_layers]
  have hd := (durationOf_bounds v).1
  split
  · exact defaultLayers_weak _
  · intro l hl
    unfold sanitizeLayers at hl
    obtain ⟨⟨i, x⟩, _, hs⟩ := List.mem_filterMap.mp hl
    have hinv := sanitizeLayer_inv (durationOf v) hd i x l hs
    exact ⟨hinv.1, hinv.2.1, fun an han => animInv_weak _ _ (hinv.2.2 an han)⟩

/-! ## Claim C1 -/

/-- C1 (amended): for every input value v, sanitize(v) returns, without
raising, a spec with truthy (hence non-empty) id, 1000 <= durationMs <=
10000, 1 <= fps <= 60, a non-empty layer sequence, truthy layer ids, every
prop within its clamp range, and every Linear animation window satisfying
0 <= start and end <= durationMs; the window additionally satisfies
start + 100 <= end whenever durationMs >= 1100.  (As stated the claim
fails: when filtering leaves no layers and durationMs < 1100, the default
scene animation has end = durationMs - 1000 < start + 100; see the
counterexample.) -/
theorem sanitize_total_and_invariants (v : JSValue) :
    1000 ≤ (sanitizeAnswer v).visualization.duration ∧
    (sanitizeAnswer v).visualization.duration ≤ 10000 ∧
    1 ≤ (sanitizeAnswer v).visualization.fps ∧
    (sanitizeAnswer v).visualization.fps ≤ 60 ∧
    (sanitizeAnswer v).visualization.layers ≠ [] ∧
    truthy (sanitizeAnswer v).visualization.id = true ∧
    (sanitizeAnswer v).visualization.id ≠ .str "" ∧
    ∀ l ∈ (sanitizeAnswer v).visualization.layers,
      truthy l.id = true ∧ PropsInv l ∧
        ∀ an ∈ l.anims, AnimWindowWeak ((sanitizeAnswer v).visualization.duration) an := by
  have hdur := durationOf_bounds v
  have hfps := fpsOf_bounds v
  refine ⟨by rw [sanitize_duration]; exact hdur.1, by rw [sanitize_duration]; exact hdur.2,
    by rw [sanitize_fps]; exact hfps.1, by rw [sanitize_fps]; exact hfps.2,
    sanitize_layers_ne_nil v, sanitize_id_truthy v, ?_, ?_⟩
  · intro hc
    have ht := sanitize_id_truthy v
    rw [hc] at ht
    simp [truthy] at ht
  · rw [sanitize_duration]
    exact sanitize_layers_weak v

/-- C1 counterexample: sanitizing an input that asks for duration 1000 and
supplies no layers installs the default scene whose animation window is
[0, 0], violating start + 100 <= end. -/
theorem sanitize_total_and_invariants_cex : ¬ AnimWindowsOK (sanitizeAnswer vDur1000) := by
  intro h
  have hl : (sanitizeAnswer vDur1000).visualization.layers =
      [ .circle (.str "ball") { x := 120, y := 220, r := 18, fill := "#3498db" }
          [ .linear { property := .x, from_ := 120, to_ := 520, start := 0, end_ := 1000 - 1000 } ]
      , .arrow (.str "arrow") { x := 90, y := 220, dx := 40, dy := 0, color := "#e74c3c" } ] := rfl
  unfold AnimWindowsOK at h
  rw [hl] at h
  have h2 := h (Layer.circle (.str "ball") { x := 120, y := 220, r := 18, fill := "#3498db" }
      [ .linear { property := .x, from_ := 120, to_ := 520, start := 0, end_ := 1000 - 1000 } ])
    (by simp)
    (Anim.linear { property := .x, from_ := 120, to_ := 520, start := 0, end_ := 1000 - 1000 })
    (by simp [Layer.anims])
  exact absurd h2 (by norm_num)

/-- C1 witness: the amended theorem applied at input null, whose fallback
spec has duration 5000 and the default scene. -/
theorem sanitize_total_and_invariants_witness :
    1000 ≤ (sanitizeAnswer JSValue.null).visualization.duration ∧
    (sanitizeAnswer JSValue.null).visualization.layers ≠ [] ∧
    PropsInv (Layer.arrow (.str "arrow") { x := 90, y := 220, dx := 40, dy := 0, color := "#e74c3c" }) := by
  obtain ⟨h1, _, _, _, h5, _, _, h8⟩ := sanitize_total_and_invariants JSValue.null
  have hl : (sanitizeAnswer JSValue.null).visualization.layers =
      [ .circle (.str "ball") { x := 120, y := 220, r := 18, fill := "#3498db" }
          [ .linear { property := .x, from_ := 120, to_ := 520, start := 0, end_ := 5000 - 1000 } ]
      , .arrow (.str "arrow") { x := 90, y := 220, dx := 40, dy := 0, color := "#e74c3c" } ] := rfl
  exact ⟨h1, h5, (h8 _ (by rw [hl]; simp)).2.1⟩

/-! ## Claim C4 -/

theorem sanitizeLayer_id_of_falsy (dur : ℚ) (i : ℕ) (l : JSValue) (out : Layer)
    (h1 : truthy (getField l "id") = false) (h2 : sanitizeLayer dur i l = some out) :
    out.id = .str ("layer_" ++ natStr i) := by
  unfold sanitizeLayer at h2
  rw [if_neg (by rw [h1]; exact Bool.false_ne_true)] at h2
  dsimp only [] at h2
  split at h2
  · injection h2 with h2; subst h2; rfl
  · injection h2 with h2; subst h2; rfl
  · injection h2 with h2; subst h2; rfl
  · exact absurd h2 (by simp)

theorem sanitizeLayers_ids_pairwise (dur : ℚ) (xs : List JSValue)
    (h : ∀ l ∈ xs, truthy (getField l "id") = false) :
    ∀ n, ((List.enumFrom n xs).filterMap (fun p => sanitizeLayer dur p.1 p.2)).Pairwise
      (fun a b => a.id ≠ b.id) := by
  induction xs with
  | nil => intro n; exact List.Pairwise.nil
  | cons x xs ih =>
    intro n
    have hx := h x (by simp)
    have hxs : ∀ l ∈ xs, truthy (getField l "id") = false := fun l hl => h l (by simp [hl])
    rw [show List.enumFrom n (x :: xs) = (n, x) :: List.enumFrom (n + 1) xs from rfl,
      List.filterMap_cons]
    cases hs : sanitizeLayer dur n x with
    | none => exact ih hxs (n + 1)
    | some out =>
      refine List.Pairwise.cons ?_ (ih hxs (n + 1))
      intro b hb
      obtain ⟨⟨j, y⟩, hmem, hsy⟩ := List.mem_filterMap.mp hb
      have hy : y ∈ xs := by
        have := (List.mk_mem_enumFrom_iff_le_and_getElem?_sub.mp hmem).2
        exact List.getElem?_mem this
      have hj : n + 1 ≤ j := (List.mk_mem_enumFrom_iff_le_and_getElem?_sub.mp hmem).1
      have haid := sanitizeLayer_id_of_falsy dur n x out hx hs
      have hbid := sanitizeLayer_id_of_falsy dur j y b (hxs y hy) hsy
      rw [haid, hbid]
      intro hc
      have := layerStr_inj (JSValue.str.inj hc)
      omega

/-- C4 (amended): layer ids assigned by the sanitizer are layer_(index)
when an input entry id is absent or falsy, so the output ids are pairwise
distinct whenever no input layer entry carries a truthy id (in particular
for the default scene); supplied ids, however, pass through without
deduplication, so two input layers with the same id yield duplicate output
ids (see the counterexample). -/
theorem layer_ids_unique_when_absent (v : JSValue)
    (h : ∀ l ∈ rawLayersOf v, truthy (getField l "id") = false) :
    (sanitizeAnswer v).visualization.layers.Pairwise (fun a b => a.id ≠ b.id) := by
  rw [sanitize_layers]
  split
  · refine List.Pairwise.cons ?_ (List.Pairwise.cons (fun b hb => absurd hb (List.not_mem_nil b))
      List.Pairwise.nil)
    intro b hb
    simp only [List.mem_singleton] at hb
    subst hb
    intro hc
    have := JSValue.str.inj hc
    simp at this
  · have := sanitizeLayers_ids_pairwise (durationOf v) (rawLayersOf v) h 0
    exact this

/-- C4 counterexample: two input layers both carrying the id "dup" keep
that id, so the output ids are not unique within the spec. -/
theorem layer_ids_unique_cex :
    ¬ (sanitizeAnswer vDup).visualization.layers.Pairwise (fun a b => a.id ≠ b.id) := by
  intro h
  have hl : (sanitizeAnswer vDup).visualization.layers =
      [ .circle (.str "dup") { x := 160, y := 200, r := 16, fill := "#3498db" } []
      , .circle (.str "dup") { x := 160, y := 200, r := 16, fill := "#3498db" } [] ] := rfl
  rw [hl] at h
  exact (List.pairwise_cons.mp h).1 _ (by simp) rfl

/-- C4 witness: the amended theorem applied at input null, whose layer
entries (there are none) all lack ids, yielding the default scene with
distinct ids ball and arrow. -/
theorem layer_ids_unique_when_absent_witness :
    (sanitizeAnswer JSValue.null).visualization.layers.Pairwise (fun a b => a.id ≠ b.id) :=
  layer_ids_unique_when_absent JSValue.null (by
    intro l hl
    rw [show rawLayersOf JSValue.null = [] from rfl] at hl
    exact absurd hl (List.not_mem_nil l))

/-! ## Claim C10 -/

theorem safeNumber_default (n : JSValue) (d : ℚ) (h : (jsToNumber n).isFinite = false) :
    safeNumber n d = d := by
  unfold safeNumber
  cases hn : jsToNumber n with
  | fin q => rw [hn] at h; simp [JSNum.isFinite] at h
  | nan => rfl
  | inf => rfl
  | negInf => rfl

/-- C10: every numeric field of a spec returned by sanitize is a finite
rational (the embedding makes this structural exactly because every such
field is produced by safeNumber-then-clamp), and a value that does not
coerce to a finite number is replaced by the field default before
clamping: a linear animation whose from / to does not coerce gets 100 /
500, and a duration / fps that does not coerce gets 5000 / 30 before
clamping. -/
theorem sanitize_numbers_finite_and_defaults (v a : JSValue) (dur : ℚ) :
    (∀ q ∈ specNumbers (sanitizeAnswer v), (JSNum.fin q).isFinite = true) ∧
    ((jsToNumber (getField a "from")).isFinite = false →
      animFrom? (sanitizeAnim dur a) = none ∨ animFrom? (sanitizeAnim dur a) = some 100) ∧
    ((jsToNumber (getField a "to")).isFinite = false →
      animTo? (sanitizeAnim dur a) = none ∨ animTo? (sanitizeAnim dur a) = some 500) ∧
    ((jsToNumber (getField (visOf v) "duration")).isFinite = false →
      (sanitizeAnswer v).visualization.duration = 5000) ∧
    ((jsToNumber (getField (visOf v) "fps")).isFinite = false →
      (sanitizeAnswer v).visualization.fps = 30) := by
  refine ⟨fun q _ => rfl, ?_, ?_, ?_, ?_⟩
  · intro h
    unfold sanitizeAnim
    split
    · exact Or.inl rfl
    · right
      show some (safeNumber (getField a "from") 100) = some 100
      rw [safeNumber_default _ _ h]
  · intro h
    unfold sanitizeAnim
    split
    · exact Or.inl rfl
    · right
      show some (safeNumber (getField a "to") 500) = some 500
      rw [safeNumber_default _ _ h]
  · intro h
    rw [sanitize_duration]
    unfold durationOf
    rw [safeNumber_default _ _ h]
    rfl
  · intro h
    rw [sanitize_fps]
    unfold fpsOf
    rw [safeNumber_default _ _ h]
    rfl

/-- C10 witness: the theorem applied at concrete inputs: the duration of
the fallback spec is a finite number; a from field holding the string abc
does not coerce, so from defaults to 100; a duration field holding the
string soon does not coerce, so the duration is the clamped default
5000. -/
theorem sanitize_numbers_finite_and_defaults_witness :
    ((JSNum.fin ((sanitizeAnswer JSValue.null).visualization.duration)).isFinite = true) ∧
    (animFrom? (sanitizeAnim 5000 (JSValue.obj [("from", .str "abc")])) = none ∨
      animFrom? (sanitizeAnim 5000 (JSValue.obj [("from", .str "abc")])) = some 100) ∧
    (sanitizeAnswer (JSValue.obj [("visualization", .obj [("duration", .str "soon")])])).visualization.duration = 5000 := by
  refine ⟨?_, ?_, ?_⟩
  · exact (sanitize_numbers_finite_and_defaults JSValue.null JSValue.null 0).1 _
      (List.mem_cons_self _ _)
  · exact (sanitize_numbers_finite_and_defaults JSValue.null
      (JSValue.obj [("from", .str "abc")]) 5000).2.1 rfl
  · exact (sanitize_numbers_finite_and_defaults
      (JSValue.obj [("visualization", .obj [("duration", .str "soon")])]) JSValue.null 0).2.2.2.1 rfl

/-! ## Claim C2 -/

theorem anim_roundtrip (dur : ℚ) (a : Anim) (h : AnimInv dur a) :
    sanitizeAnim dur (animToJS a) = a := by
  cases a with
  | orbit o =>
    obtain ⟨h1, h2, h3, h4, h5, h6, h7, h8⟩ := h
    show Anim.orbit
      { centerX := clamp o.centerX 0 640, centerY := clamp o.centerY 0 400,
        radius := clamp o.radius 10 250, duration := clamp o.duration 500 10000 } =
      Anim.orbit o
    rw [clamp_eq_of _ _ _ h1 h2, clamp_eq_of _ _ _ h3 h4, clamp_eq_of _ _ _ h5 h6,
      clamp_eq_of _ _ _ h7 h8]
  | linear la =>
    obtain ⟨h1, h2, h3, h4⟩ := h
    cases la with
    | mk prop f g s e =>
      cases prop with
      | x =>
        show Anim.linear
          { property := .x, from_ := f, to_ := g, start := clamp s 0 (dur - 100),
            end_ := clamp e (clamp s 0 (dur - 100) + 100) dur } = Anim.linear ⟨.x, f, g, s, e⟩
        rw [clamp_eq_of _ _ _ h1 h2, clamp_eq_of _ _ _ h3 h4]
      | y =>
        show Anim.linear
          { property := .y, from_ := f, to_ := g, start := clamp s 0 (dur - 100),
            end_ := clamp e (clamp s 0 (dur - 100) + 100) dur } = Anim.linear ⟨.y, f, g, s, e⟩
        rw [clamp_eq_of _ _ _ h1 h2, clamp_eq_of _ _ _ h3 h4]
      | r =>
        show Anim.linear
          { property := .r, from_ := f, to_ := g, start := clamp s 0 (dur - 100),
            end_ := clamp e (clamp s 0 (dur - 100) + 100) dur } = Anim.linear ⟨.r, f, g, s, e⟩
        rw [clamp_eq_of _ _ _ h1 h2, clamp_eq_of _ _ _ h3 h4]

theorem layer_roundtrip (dur : ℚ) (i : ℕ) (l : Layer) (h : LayerInv dur l) :
    sanitizeLayer dur i (layerToJS l) = some l := by
  obtain ⟨hid, hp, ha⟩ := h
  cases l with
  | circle id p anims =>
    cases p with
    | mk px py pr pf =>
      obtain ⟨h1, h2, h3, h4, h5, h6⟩ := hp
      show some (Layer.circle
          (if truthy id = true then id else .str ("layer_" ++ natStr i))
          { x := clamp px 0 640, y := clamp py 0 400, r := clamp pr 1 120, fill := pf }
          ((anims.map animToJS).map (sanitizeAnim dur))) =
        some (Layer.circle id ⟨px, py, pr, pf⟩ anims)
      have hid' : truthy id = true := hid
      rw [if_pos hid', clamp_eq_of _ _ _ h1 h2, clamp_eq_of _ _ _ h3 h4,
        clamp_eq_of _ _ _ h5 h6, List.map_map,
        map_eq_self_of (sanitizeAnim dur ∘ animToJS) anims
          (fun a hmem => anim_roundtrip dur a (ha a hmem))]
  | arrow id p =>
    cases p with
    | mk px py pdx pdy pc =>
      obtain ⟨h1, h2, h3, h4, h5, h6, h7, h8⟩ := hp
      show some (Layer.arrow
          (if truthy id = true then id else .str ("layer_" ++ natStr i))
          { x := clamp px 0 640, y := clamp py 0 400, dx := clamp pdx (-640) 640,
            dy := clamp pdy (-400) 400, color := pc }) =
        some (Layer.arrow id ⟨px, py, pdx, pdy, pc⟩)
      have hid' : truthy id = true := hid
      rw [if_pos hid', clamp_eq_of _ _ _ h1 h2, clamp_eq_of _ _ _ h3 h4,
        clamp_eq_of _ _ _ h5 h6, clamp_eq_of _ _ _ h7 h8]
  | lottie id p =>
    cases p with
    | mk pu px py pw ph pl =>
      obtain ⟨h1, h2, h3, h4, h5, h6, h7, h8⟩ := hp
      show some (Layer.lottie
          (if truthy id = true then id else .str ("layer_" ++ natStr i))
          { url := pu, x := clamp px 0 640, y := clamp py 0 400,
            width := clamp pw 40 640, height := clamp ph 40 400, loop := pl }) =
        some (Layer.lottie id ⟨pu, px, py, pw, ph, pl⟩)
      have hid' : truthy id = true := hid
      rw [if_pos hid', clamp_eq_of _ _ _ h1 h2, clamp_eq_of _ _ _ h3 h4,
        clamp_eq_of _ _ _ h5 h6, clamp_eq_of _ _ _ h7 h8]

theorem sanitizeLayers_roundtrip (dur : ℚ) (L : List Layer)
    (h : ∀ l ∈ L, LayerInv dur l) :
    sanitizeLayers dur (L.map layerToJS) = L := by
  have hgen : ∀ (M : List Layer), (∀ l ∈ M, LayerInv dur l) → ∀ n,
      (List.enumFrom n (M.map layerToJS)).filterMap
        (fun p => sanitizeLayer dur p.1 p.2) = M := by
    intro M
    induction M with
    | nil => intro _ n; rfl
    | cons l L ih =>
      intro hM n
      rw [List.map_cons, show List.enumFrom n (layerToJS l :: L.map layerToJS) =
        (n, layerToJS l) :: List.enumFrom (n + 1) (L.map layerToJS) from rfl,
        List.filterMap_cons]
      rw [show sanitizeLayer dur (n, layerToJS l).1 (n, layerToJS l).2 = some l from
        layer_roundtrip dur n l (hM l (by simp))]
      rw [ih (fun x hx => hM x (by simp [hx])) (n + 1)]
  exact hgen L h 0

theorem textOf_trim_fix (v : JSValue) : jsTrim (textOf v) = textOf v := by
  unfold textOf
  cases getField v "text" with
  | str s =>
    show jsTrim (if jsTrim s = "" then fallbackText else jsTrim s) =
      (if jsTrim s = "" then fallbackText else jsTrim s)
    by_cases hs : jsTrim s = ""
    · rw [if_pos hs]
      rfl
    · rw [if_neg hs]
      exact jsTrim_idem s
  | undefined => rfl
  | null => rfl
  | bool b => rfl
  | num n => rfl
  | arr xs => rfl
  | obj fs => rfl

theorem textOf_ne_empty (v : JSValue) : textOf v ≠ "" := by
  unfold textOf
  cases getField v "text" with
  | str s =>
    show (if jsTrim s = "" then fallbackText else jsTrim s) ≠ ""
    by_cases hs : jsTrim s = ""
    · rw [if_pos hs]; decide
    · rw [if_neg hs]; exact hs
  | undefined => show fallbackText ≠ ""; decide
  | null => show fallbackText ≠ ""; decide
  | bool b => show fallbackText ≠ ""; decide
  | num n => show fallbackText ≠ ""; decide
  | arr xs => show fallbackText ≠ ""; decide
  | obj fs => show fallbackText ≠ ""; decide

/-- C2 (amended): feeding a sanitized output back through the sanitizer
reproduces it exactly, for every input whose sanitized layers come from the
input (filtering kept at least one layer) and also whenever the sanitized
duration is at least 1100; already-canonical specs of that kind are fixed
points.  (As stated the claim fails: when the default scene is installed
with durationMs < 1100, its animation end durationMs - 1000 is re-clamped
up to 100 on the second pass; see the counterexample.) -/
theorem sanitize_idempotent (v : JSValue)
    (h : sanitizeLayers (durationOf v) (rawLayersOf v) ≠ [] ∨ 1100 ≤ durationOf v) :
    sanitizeAnswer (answerToJS (sanitizeAnswer v)) = sanitizeAnswer v := by
  have hdur := durationOf_bounds v
  have hfps := fpsOf_bounds v
  have hvis : visOf (answerToJS (sanitizeAnswer v)) = JSValue.obj
      [ ("id", (sanitizeAnswer v).visualization.id)
      , ("duration", .num (.fin (sanitizeAnswer v).visualization.duration))
      , ("fps", .num (.fin (sanitizeAnswer v).visualization.fps))
      , ("layers", .arr ((sanitizeAnswer v).visualization.layers.map layerToJS)) ] := rfl
  have hdur2 : durationOf (answerToJS (sanitizeAnswer v)) =
      (sanitizeAnswer v).visualization.duration := by
    unfold durationOf
    rw [hvis]
    show clamp (sanitizeAnswer v).visualization.duration 1000 10000 = _
    exact clamp_eq_of _ _ _ hdur.1 hdur.2
  have hfps2 : fpsOf (answerToJS (sanitizeAnswer v)) =
      (sanitizeAnswer v).visualization.fps := by
    unfold fpsOf
    rw [hvis]
    show clamp (sanitizeAnswer v).visualization.fps 1 60 = _
    exact clamp_eq_of _ _ _ hfps.1 hfps.2
  have hid2 : (if truthy (getField (visOf (answerToJS (sanitizeAnswer v))) "id") = true
      then getField (visOf (answerToJS (sanitizeAnswer v))) "id"
      else .str "vis_safe") = (sanitizeAnswer v).visualization.id := by
    rw [hvis]
    show (if truthy (sanitizeAnswer v).visualization.id = true
      then (sanitizeAnswer v).visualization.id else .str "vis_safe") = _
    rw [if_pos (sanitize_id_truthy v)]
  have hraw : rawLayersOf (answerToJS (sanitizeAnswer v)) =
      (sanitizeAnswer v).visualization.layers.map layerToJS := by
    unfold rawLayersOf
    rw [hvis]
    rfl
  have hLinv : ∀ l ∈ (sanitizeAnswer v).visualization.layers,
      LayerInv (sanitizeAnswer v).visualization.duration l := by
    rw [sanitize_duration, sanitize_layers]
    split
    · next hempty =>
      rcases h with h | h
      · exact absurd (List.isEmpty_iff.mp hempty) h
      · exact defaultLayers_inv _ h
    · intro l hl
      obtain ⟨⟨i, x⟩, _, hs⟩ := List.mem_filterMap.mp hl
      exact sanitizeLayer_inv _ (durationOf_bounds v).1 i x l hs
  have hlayers2 : sanitizeLayers (durationOf (answerToJS (sanitizeAnswer v)))
      (rawLayersOf (answerToJS (sanitizeAnswer v))) =
      (sanitizeAnswer v).visualization.layers := by
    rw [hdur2, hraw]
    exact sanitizeLayers_roundtrip _ _ hLinv
  have hne : ¬ ((sanitizeAnswer v).visualization.layers.isEmpty = true) := by
    rw [List.isEmpty_iff]
    exact sanitize_layers_ne_nil v
  have htext : textOf (answerToJS (sanitizeAnswer v)) = textOf v := by
    show (if jsTrim (textOf v) = "" then fallbackText else jsTrim (textOf v)) = textOf v
    rw [textOf_trim_fix v, if_neg (textOf_ne_empty v)]
  show Answer.mk (textOf (answerToJS (sanitizeAnswer v)))
    (Vis.mk
      (if truthy (getField (visOf (answerToJS (sanitizeAnswer v))) "id") = true
        then getField (visOf (answerToJS (sanitizeAnswer v))) "id" else .str "vis_safe")
      (durationOf (answerToJS (sanitizeAnswer v)))
      (fpsOf (answerToJS (sanitizeAnswer v)))
      (if (sanitizeLayers (durationOf (answerToJS (sanitizeAnswer v)))
          (rawLayersOf (answerToJS (sanitizeAnswer v)))).isEmpty
        then defaultLayers (durationOf (answerToJS (sanitizeAnswer v)))
        else sanitizeLayers (durationOf (answerToJS (sanitizeAnswer v)))
          (rawLayersOf (answerToJS (sanitizeAnswer v))))) = sanitizeAnswer v
  rw [htext, hlayers2, if_neg hne, hid2, hdur2, hfps2]
  rfl

/-- C2 counterexample: sanitizing the duration-1000 empty-layers input and
feeding the output back through the sanitizer changes the default scene
animation end from 0 to 100, so sanitize is not idempotent. -/
theorem sanitize_idempotent_cex :
    sanitizeAnswer (answerToJS (sanitizeAnswer vDur1000)) ≠ sanitizeAnswer vDur1000 := by
  intro h
  have h2 := congrArg firstAnimEnd? h
  have e1 : firstAnimEnd? (sanitizeAnswer (answerToJS (sanitizeAnswer vDur1000))) =
      some (clamp (1000 - 1000) (clamp 0 0 (1000 - 100) + 100) 1000) := rfl
  have e2 : firstAnimEnd? (sanitizeAnswer vDur1000) = some (1000 - 1000) := rfl
  rw [e1, e2] at h2
  have h3 := Option.some.inj h2
  have : clamp (1000 - 1000) (clamp 0 0 (1000 - 100) + 100) 1000 = (100 : ℚ) := by
    norm_num [clamp]
  rw [this] at h3
  norm_num at h3

/-- C2 witness: the amended theorem applied at input null, whose sanitized
duration 5000 is at least 1100. -/
theorem sanitize_idempotent_witness :
    sanitizeAnswer (answerToJS (sanitizeAnswer JSValue.null)) = sanitizeAnswer JSValue.null :=
  sanitize_idempotent JSValue.null
    (Or.inr (by rw [show durationOf JSValue.null = 5000 from rfl]; norm_num))

/-! ## Claim C3 -/

/-- C3 counterexample: on the end-to-end raw text, extractJSON fails both
directly (the string neither parses as JSON nor ends with a closing brace,
the end-anchored regex finding no match past the trailing backticks) and
after code-fence removal (the leading fence is preceded by prose so it is
not stripped, and stripping the trailing fence leaves a final newline that
still defeats the end-anchored brace regex), so the extractor never
recovers the embedded object. -/
theorem extract_end_to_end_cex :
    extractJSON raw3 = none ∧ extractJSON (stripFences raw3) = none := ⟨rfl, rfl⟩

/-- C3 (amended): for the end-to-end raw text, the extraction pipeline of
askOllama (extractJSON, then extractJSON after code-fence removal) returns
nothing rather than the embedded object; sanitize applied to that embedded
object itself clamps duration to 10000, x to 0, r to 1, and yields exactly
one circle layer with id layer_0 and no animations, with no default scene
injected. -/
theorem extract_end_to_end :
    ollamaExtract raw3 = none ∧
    sanitizeAnswer emb3 =
      { text := "ok"
        visualization :=
          { id := .str "vis_safe", duration := 10000, fps := 30
            layers := [.circle (.str "layer_0")
              { x := 0, y := 200, r := 1, fill := "#3498db" } []] } } := ⟨rfl, rfl⟩

/-! ## Evaluator helper lemmas -/

theorem ratTrunc_add_one (q : ℚ) (h : 0 ≤ q) : ratTrunc (q + 1) = ratTrunc q + 1 := by
  unfold ratTrunc
  rw [if_pos h, if_pos (by linarith)]
  exact Int.floor_add_one q

theorem jsMod_period (t P : ℚ) (ht : 0 ≤ t) (hP : 0 < P) :
    jsMod (t + P) P = jsMod t P := by
  unfold jsMod
  have hdiv : (t + P) / P = t / P + 1 := by field_simp
  rw [hdiv, ratTrunc_add_one _ (div_nonneg ht hP.le)]
  push_cast
  ring

theorem applyAnim_orbit_periodic (st : CircleState) (o : COrbit) (dur t P : ℚ)
    (ht : 0 ≤ t) (hod : orbitDur o dur = P) (hP : 0 < P) :
    applyAnim dur (t + P) st (.orbit o) = applyAnim dur t st (.orbit o) := by
  show CircleState.mk
      ((o.centerX : ℝ) + (o.radius : ℝ) *
        Real.cos ((jsMod (t + P) (orbitDur o dur) / orbitDur o dur : ℚ) * Real.pi * 2))
      ((o.centerY : ℝ) + (o.radius : ℝ) *
        Real.sin ((jsMod (t + P) (orbitDur o dur) / orbitDur o dur : ℚ) * Real.pi * 2))
      st.r =
    CircleState.mk
      ((o.centerX : ℝ) + (o.radius : ℝ) *
        Real.cos ((jsMod t (orbitDur o dur) / orbitDur o dur : ℚ) * Real.pi * 2))
      ((o.centerY : ℝ) + (o.radius : ℝ) *
        Real.sin ((jsMod t (orbitDur o dur) / orbitDur o dur : ℚ) * Real.pi * 2))
      st.r
  rw [hod, jsMod_period t P ht hP]

theorem applyAnim_linear_value (st : CircleState) (la : CLinear) (dur t s e : ℚ)
    (hs : la.start? = some s) (he : la.end? = some e) :
    applyAnim dur t st (.linear la) =
      setTarget st la.property (linearValue la.from_ la.to_ s e t) := by
  cases la with
  | mk prop f g s0 e0 =>
    have hs' : s0 = some s := hs
    have he' : e0 = some e := he
    subst hs'
    subst he'
    cases prop <;> rfl

/-! ## Claim C5 -/

/-- C5: the evaluator is callable with any time, clamping it from above at
durationMs before use: for every sanitized spec and every t at or past
durationMs, draw yields the same render states as at durationMs, for every
layer, orbit animations included. -/
theorem draw_clamps_time (v : JSValue) (t : ℚ)
    (h : (sanitizeAnswer v).visualization.duration ≤ t) :
    draw (clientOf (sanitizeAnswer v).visualization) t =
      draw (clientOf (sanitizeAnswer v).visualization)
        ((sanitizeAnswer v).visualization.duration) := by
  have hd0 : (1000 : ℚ) ≤ (sanitizeAnswer v).visualization.duration := by
    rw [sanitize_duration]
    exact (durationOf_bounds v).1
  have hdur : durOf (clientOf (sanitizeAnswer v).visualization) =
      (sanitizeAnswer v).visualization.duration := by
    unfold durOf clientOf
    dsimp only
    rw [if_neg]
    intro hc
    rw [hc] at hd0
    norm_num at hd0
  show ((clientOf (sanitizeAnswer v).visualization).layers?.getD []).filterMap
      (drawLayer (durOf (clientOf (sanitizeAnswer v).visualization))
        (min t (durOf (clientOf (sanitizeAnswer v).visualization)))) =
    ((clientOf (sanitizeAnswer v).visualization).layers?.getD []).filterMap
      (drawLayer (durOf (clientOf (sanitizeAnswer v).visualization))
        (min ((sanitizeAnswer v).visualization.duration)
          (durOf (clientOf (sanitizeAnswer v).visualization))))
  rw [hdur, min_eq_right h, min_self]

/-- C5 witness: the theorem applied to the fallback spec (duration 5000)
at t = 12000. -/
theorem draw_clamps_time_witness :
    draw (clientOf (sanitizeAnswer JSValue.null).visualization) 12000 =
      draw (clientOf (sanitizeAnswer JSValue.null).visualization)
        ((sanitizeAnswer JSValue.null).visualization.duration) :=
  draw_clamps_time JSValue.null 12000
    (by rw [show (sanitizeAnswer JSValue.null).visualization.duration = 5000 from rfl]; norm_num)

/-! ## Claim C6 -/

theorem filterMap_drawLayer_eq (dur t : ℚ) (L : List CLayer) :
    L.filterMap (drawLayer dur t) =
      (L.filter (fun l => !isLottie l)).map (drawLayerD dur t) := by
  induction L with
  | nil => rfl
  | cons l L ih =>
    cases l with
    | circle p a =>
      simp only [List.filterMap_cons, List.filter_cons, drawLayer, isLottie, drawLayerD,
        Bool.not_false, if_pos, List.map_cons, Option.getD_some, ih]
    | arrow p a =>
      simp only [List.filterMap_cons, List.filter_cons, drawLayer, isLottie, drawLayerD,
        Bool.not_false, if_pos, List.map_cons, Option.getD_some, ih]
    | lottie =>
      simp only [List.filterMap_cons, List.filter_cons, drawLayer, isLottie, drawLayerD,
        Bool.not_true, if_neg, ih]
      simp

/-- C6 (amended): for every sanitized spec and time, draw emits exactly one
RenderState per circle or arrow layer, in the order of spec.layers
restricted to those layers (the output is the filtered layer list mapped
through per-layer evaluation, so its length is the number of non-lottie
layers); arrow layers pass their base props through unchanged, and lottie
layers emit no RenderState at all, the renderer having no branch for
them.  (As stated the claim fails: a lottie layer yields no RenderState,
so there is not one entry per layer; see the counterexample.) -/
theorem draw_order_and_passthrough (v : JSValue) (t : ℚ) :
    draw (clientOf (sanitizeAnswer v).visualization) t =
      (((clientOf (sanitizeAnswer v).visualization).layers?.getD []).filter
        (fun l => !isLottie l)).map
        (drawLayerD (durOf (clientOf (sanitizeAnswer v).visualization))
          (min t (durOf (clientOf (sanitizeAnswer v).visualization)))) ∧
    (∀ (p : CArrowP) (a : Option (List CAnim)) (dur u : ℚ),
      drawLayerD dur u (.arrow p a) =
        .arrow (p.x : ℝ) (p.y : ℝ) (p.dx : ℝ) (p.dy : ℝ) (jsOrStr p.color? "#e74c3c")) ∧
    (∀ dur u : ℚ, drawLayer dur u CLayer.lottie = none) ∧
    (draw (clientOf (sanitizeAnswer v).visualization) t).length =
      (((clientOf (sanitizeAnswer v).visualization).layers?.getD []).filter
        (fun l => !isLottie l)).length := by
  have h1 : draw (clientOf (sanitizeAnswer v).visualization) t =
      (((clientOf (sanitizeAnswer v).visualization).layers?.getD []).filter
        (fun l => !isLottie l)).map
        (drawLayerD (durOf (clientOf (sanitizeAnswer v).visualization))
          (min t (durOf (clientOf (sanitizeAnswer v).visualization)))) :=
    filterMap_drawLayer_eq _ _ _
  refine ⟨h1, fun p a dur u => rfl, fun dur u => rfl, ?_⟩
  rw [h1]
  exact List.length_map _ _

/-- C6 counterexample: a sanitized spec holding exactly one (lottie)
layer draws zero render states, not one per layer. -/
theorem draw_order_cex :
    (sanitizeAnswer vLottie).visualization.layers.length = 1 ∧
    draw (clientOf (sanitizeAnswer vLottie).visualization) 0 = [] := ⟨rfl, rfl⟩

/-! ## Claim C7 -/

/-- C7: linear interpolation boundary semantics: for the circle layer with
animation from 100 to 500 over [0, 1000] in a 5000 ms spec, draw yields
x = 100 at t = 0, x = 300 at t = 500, x = 500 at t = 1000 and at every
later t; in general a linear animation sets its target property to
from + (to - from) * clamp((t - start) / max(end - start, 1), 0, 1),
holding at the edges outside the window. -/
theorem linear_interpolation_boundary :
    headCircleX? (draw spec7 0) = some ((100 : ℝ)) ∧
    headCircleX? (draw spec7 500) = some ((300 : ℝ)) ∧
    headCircleX? (draw spec7 1000) = some ((500 : ℝ)) ∧
    (∀ t : ℚ, 1000 ≤ t → headCircleX? (draw spec7 t) = some ((500 : ℝ))) ∧
    (∀ (st : CircleState) (la : CLinear) (dur t s e : ℚ),
      la.start? = some s → la.end? = some e →
      applyAnim dur t st (.linear la) =
        setTarget st la.property (linearValue la.from_ la.to_ s e t)) := by
  have hx : ∀ t0 : ℚ, headCircleX? (draw spec7 t0) =
      some (((100 : ℚ) + ((500 : ℚ) - 100) *
        min (max ((min t0 5000 - 0) / max ((1000 : ℚ) - 0) 1) 0) 1 : ℚ) : ℝ) := by
    intro t0
    rfl
  have hsimp : ∀ t0 : ℚ, ((100 : ℚ) + ((500 : ℚ) - 100) *
      min (max ((min t0 5000 - 0) / max ((1000 : ℚ) - 0) 1) 0) 1) =
      100 + 400 * min (max (min t0 5000 / 1000) 0) 1 := by
    intro t0
    rw [show ((1000 : ℚ) - 0) = 1000 by norm_num,
      show max (1000 : ℚ) 1 = 1000 from max_eq_left (by norm_num), sub_zero,
      show ((500 : ℚ) - 100) = 400 by norm_num]
  refine ⟨?_, ?_, ?_, ?_, ?_⟩
  · rw [hx 0, show min (0 : ℚ) 5000 = 0 from min_eq_left (by norm_num)]
    norm_num
  · rw [hx 500, hsimp 500, show min (500 : ℚ) 5000 = 500 from min_eq_left (by norm_num),
      show ((500 : ℚ) / 1000) = 1 / 2 by norm_num,
      show max ((1 : ℚ) / 2) 0 = 1 / 2 from max_eq_left (by norm_num),
      show min ((1 : ℚ) / 2) 1 = 1 / 2 from min_eq_left (by norm_num)]
    norm_num
  · rw [hx 1000, hsimp 1000, show min (1000 : ℚ) 5000 = 1000 from min_eq_left (by norm_num),
      show ((1000 : ℚ) / 1000) = 1 by norm_num,
      show max (1 : ℚ) 0 = 1 from max_eq_left (by norm_num), min_self]
    norm_num
  · intro t ht
    rw [hx t, hsimp t]
    have h1 : (1 : ℚ) ≤ min t 5000 / 1000 := by
      rw [le_div_iff₀ (by norm_num : (0 : ℚ) < 1000)]
      have : (1000 : ℚ) ≤ min t 5000 := le_min ht (by norm_num)
      linarith
    rw [max_eq_left (le_trans (by norm_num) h1), min_eq_right h1]
    norm_num
  · intro st la dur t s e hs he
    exact applyAnim_linear_value st la dur t s e hs he

/-- C7 witness: the theorem applied at t = 2345 (past the window, holding
at 500) and the general formula applied at a concrete animation. -/
theorem linear_interpolation_boundary_witness :
    headCircleX? (draw spec7 2345) = some ((500 : ℝ)) ∧
    applyAnim 5000 777 ⟨(160 : ℝ), 220, 16⟩
        (.linear { property := .y, from_ := 10, to_ := 20, start? := some 0, end? := some 1000 }) =
      setTarget ⟨(160 : ℝ), 220, 16⟩ .y (linearValue 10 20 0 1000 777) :=
  ⟨linear_interpolation_boundary.2.2.2.1 2345 (by norm_num),
   linear_interpolation_boundary.2.2.2.2 _ _ _ _ _ _ rfl rfl⟩

/-! ## Claim C8 -/

/-- C8: orbit periodicity: for the orbit with center (320, 200), radius
100 and period 4000 in a 4000 ms spec, draw at t = 0 and t = 4000 produce
the same states (hence the same (x, y)); in general the orbit position is
periodic in t with period equal to the resolved orbit period, for any
nonnegative t and positive period. -/
theorem orbit_periodicity :
    draw spec8 0 = draw spec8 4000 ∧
    ∀ (st : CircleState) (o : COrbit) (dur t P : ℚ),
      0 ≤ t → orbitDur o dur = P → 0 < P →
      applyAnim dur (t + P) st (.orbit o) = applyAnim dur t st (.orbit o) := by
  constructor
  · have hper := applyAnim_orbit_periodic
      { x := ((220 : ℚ) : ℝ), y := ((200 : ℚ) : ℝ), r := ((12 : ℚ) : ℝ) }
      { centerX := 320, centerY := 200, radius := 100, duration? := some 4000 }
      4000 0 4000 le_rfl
      (by show (if (4000 : ℚ) = 0 then (4000 : ℚ) else 4000) = 4000; rw [if_neg (by norm_num)])
      (by norm_num)
    rw [show (0 : ℚ) + 4000 = 4000 by norm_num] at hper
    show [RenderState.circle
        (applyAnim (durOf spec8) (min 0 (durOf spec8))
          { x := ((220 : ℚ) : ℝ), y := ((200 : ℚ) : ℝ), r := ((12 : ℚ) : ℝ) }
          (.orbit { centerX := 320, centerY := 200, radius := 100, duration? := some 4000 })).x
        (applyAnim (durOf spec8) (min 0 (durOf spec8))
          { x := ((220 : ℚ) : ℝ), y := ((200 : ℚ) : ℝ), r := ((12 : ℚ) : ℝ) }
          (.orbit { centerX := 320, centerY := 200, radius := 100, duration? := some 4000 })).y
        (applyAnim (durOf spec8) (min 0 (durOf spec8))
          { x := ((220 : ℚ) : ℝ), y := ((200 : ℚ) : ℝ), r := ((12 : ℚ) : ℝ) }
          (.orbit { centerX := 320, centerY := 200, radius := 100, duration? := some 4000 })).r
        (jsOrStr (some "#3498db") "#3498db")] =
      [RenderState.circle
        (applyAnim (durOf spec8) (min 4000 (durOf spec8))
          { x := ((220 : ℚ) : ℝ), y := ((200 : ℚ) : ℝ), r := ((12 : ℚ) : ℝ) }
          (.orbit { centerX := 320, centerY := 200, radius := 100, duration? := some 4000 })).x
        (applyAnim (durOf spec8) (min 4000 (durOf spec8))
          { x := ((220 : ℚ) : ℝ), y := ((200 : ℚ) : ℝ), r := ((12 : ℚ) : ℝ) }
          (.orbit { centerX := 320, centerY := 200, radius := 100, duration? := some 4000 })).y
        (applyAnim (durOf spec8) (min 4000 (durOf spec8))
          { x := ((220 : ℚ) : ℝ), y := ((200 : ℚ) : ℝ), r := ((12 : ℚ) : ℝ) }
          (.orbit { centerX := 320, centerY := 200, radius := 100, duration? := some 4000 })).r
        (jsOrStr (some "#3498db") "#3498db")]
    rw [show durOf spec8 = 4000 from
        by show (if (4000 : ℚ) = 0 then (4000 : ℚ) else 4000) = 4000; rw [if_neg (by norm_num)],
      show min (0 : ℚ) 4000 = 0 from min_eq_left (by norm_num), min_self, hper]
  · intro st o dur t P ht hod hP
    exact applyAnim_orbit_periodic st o dur t P ht hod hP

/-- C8 witness: the general periodicity applied at a concrete state, orbit
and time. -/
theorem orbit_periodicity_witness :
    applyAnim 4000 (1000 + 4000) { x := (220 : ℝ), y := 200, r := 12 }
        (.orbit { centerX := 320, centerY := 200, radius := 100, duration? := some 4000 }) =
      applyAnim 4000 1000 { x := (220 : ℝ), y := 200, r := 12 }
        (.orbit { centerX := 320, centerY := 200, radius := 100, duration? := some 4000 }) :=
  orbit_periodicity.2 _ _ 4000 1000 4000 (by norm_num)
    (by show (if (4000 : ℚ) = 0 then (4000 : ℚ) else 4000) = 4000; rw [if_neg (by norm_num)])
    (by norm_num)

/-! ## Claim C9 -/

/-- C9 (amended): the evaluator never divides by zero: the effective spec
duration is never 0 (spec.duration or the 4000 fallback) and is positive
whenever spec.duration is nonnegative; the resolved orbit period is never
0; a period of 0 or a missing period is replaced by the spec duration; and
the emitted orbit coordinates always lie within centerX / centerY plus or
minus the radius magnitude, so no NaN or Infinity reaches the drawing
primitives.  (As stated the claim fails: a negative period is not replaced
by a positive fallback but used as-is; see the counterexample.) -/
theorem orbit_guard :
    (∀ spec : CVis, durOf spec ≠ 0) ∧
    (∀ (spec : CVis) (o : COrbit), orbitDur o (durOf spec) ≠ 0) ∧
    (∀ (o : COrbit) (d : ℚ), (o.duration? = none ∨ o.duration? = some 0) → orbitDur o d = d) ∧
    (∀ spec : CVis, 0 ≤ spec.duration → 0 < durOf spec) ∧
    (∀ (dur t : ℚ) (st : CircleState) (o : COrbit),
      |(applyAnim dur t st (.orbit o)).x - (o.centerX : ℝ)| ≤ |(o.radius : ℝ)| ∧
      |(applyAnim dur t st (.orbit o)).y - (o.centerY : ℝ)| ≤ |(o.radius : ℝ)|) := by
  have hdur : ∀ spec : CVis, durOf spec ≠ 0 := by
    intro spec
    unfold durOf
    split
    · norm_num
    · next h => exact h
  refine ⟨hdur, ?_, ?_, ?_, ?_⟩
  · intro spec o
    unfold orbitDur
    split
    · split
      · exact hdur spec
      · next h0 => exact h0
    · exact hdur spec
  · intro o d hd
    unfold orbitDur
    rcases hd with hd | hd <;> rw [hd]
    simp
  · intro spec hs
    unfold durOf
    split
    · norm_num
    · next h => exact lt_of_le_of_ne hs (Ne.symm h)
  · intro dur t st o
    constructor
    · show |(o.centerX : ℝ) + (o.radius : ℝ) *
        Real.cos ((jsMod t (orbitDur o dur) / orbitDur o dur : ℚ) * Real.pi * 2) -
          (o.centerX : ℝ)| ≤ |(o.radius : ℝ)|
      rw [add_sub_cancel_left, abs_mul]
      exact mul_le_of_le_one_right (abs_nonneg _) (Real.abs_cos_le_one _)
    · show |(o.centerY : ℝ) + (o.radius : ℝ) *
        Real.sin ((jsMod t (orbitDur o dur) / orbitDur o dur : ℚ) * Real.pi * 2) -
          (o.centerY : ℝ)| ≤ |(o.radius : ℝ)|
      rw [add_sub_cancel_left, abs_mul]
      exact mul_le_of_le_one_right (abs_nonneg _) (Real.abs_sin_le_one _)

/-- C9 counterexample: an orbit whose period field is -4000 keeps that
negative period (the || fallback fires only on falsy values), so the
evaluator does not substitute a positive fallback for it. -/
theorem orbit_guard_cex :
    orbitDur negOrbit 4000 = -4000 ∧ ¬ (0 : ℚ) < orbitDur negOrbit 4000 := by
  have h : orbitDur negOrbit 4000 = -4000 := by
    show (if (-4000 : ℚ) = 0 then (4000 : ℚ) else -4000) = -4000
    rw [if_neg (by norm_num)]
  refine ⟨h, ?_⟩
  rw [h]
  norm_num

/-- C9 witness: the amended theorem applied at concrete inputs: a period
of 0 is replaced by the spec duration, and the 4000 fallback duration is
positive. -/
theorem orbit_guard_witness :
    orbitDur { centerX := 320, centerY := 200, radius := 100, duration? := some 0 } 4000 = 4000 ∧
    (0 : ℚ) < durOf { duration := 0, fps? := none, layers? := none } :=
  ⟨orbit_guard.2.2.1 _ 4000 (Or.inr rfl), orbit_guard.2.2.2.1 _ (by norm_num)⟩

end ChatVis
